import Mathlib

/-!
Verification development for the Referencime MCP server (`src/bin/start.js`).

The file shallowly embeds the tool-dispatch pipeline of the server:
argument validation (zod schemas), the HTTP gateway (`callReferencimeAPI`),
the per-tool response formatters, and the catch-all error wrapper of the
`CallToolRequestSchema` handler.  Machine numbers from the JavaScript source
are embedded as `ℚ` (JSON numbers) and `ℤ`/`ℕ` (counts, ids, statuses);
strings are Lean `String`s.  Locale-dependent display functions
(`toLocaleDateString`, `toLocaleString`) are parameters of a `Runtime`
record, since their output is environment-defined; deterministic number
printing (`toFixed`, template interpolation of integers) is modelled by
concrete decimal renderers below.
-/

namespace Referencime

/-! ### Decimal rendering helpers (model of JavaScript number printing) -/

/-- Decimal digit character, `0 ≤ d ≤ 9` expected. -/
def digitChar (d : ℕ) : Char :=
  if d = 0 then '0' else if d = 1 then '1' else if d = 2 then '2'
  else if d = 3 then '3' else if d = 4 then '4' else if d = 5 then '5'
  else if d = 6 then '6' else if d = 7 then '7' else if d = 8 then '8' else '9'

/-- Digit list of a natural number, most significant first; fuel-based so that
it reduces definitionally. -/
def natDigitsAux : ℕ → ℕ → List Char
  | 0, _ => []
  | fuel + 1, n => if n = 0 then [] else natDigitsAux fuel (n / 10) ++ [digitChar (n % 10)]

/-- Decimal rendering of a natural number (model of JavaScript integer
to-string conversion, which is exact decimal). -/
def natDecimal (n : ℕ) : String :=
  if n = 0 then "0" else String.mk (natDigitsAux (n + 1) n)

/-- Decimal rendering of an integer. -/
def intStr (i : ℤ) : String :=
  if i < 0 then "-" ++ natDecimal i.natAbs else natDecimal i.natAbs

/-- Model of the default JavaScript number-to-string conversion for possibly
non-integral values: exact for integers, `num/den` notation otherwise.  No
claim depends on the digits of non-integral renderings. -/
def qStr (q : ℚ) : String :=
  if q.den = 1 then intStr q.num
  else intStr q.num ++ "/" ++ natDecimal q.den

/-- Model of `Number.prototype.toFixed(1)` over `ℚ`: round to one decimal
place and print. -/
def toFixed1 (q : ℚ) : String :=
  let n : ℤ := round (q * 10)
  (if n < 0 then "-" else "") ++ natDecimal (n.natAbs / 10) ++ "." ++ String.mk [digitChar (n.natAbs % 10)]

/-- Model of `Number.prototype.toFixed(2)` over `ℚ`. -/
def toFixed2 (q : ℚ) : String :=
  let n : ℤ := round (q * 100)
  (if n < 0 then "-" else "") ++ natDecimal (n.natAbs / 100) ++ "." ++
    String.mk [digitChar (n.natAbs % 100 / 10), digitChar (n.natAbs % 10)]

/-! ### Substring containment -/

/-- `strContains s sub` means `sub` occurs contiguously inside `s`. -/
def strContains (s sub : String) : Prop :=
  ∃ a b : List Char, s.data = a ++ sub.data ++ b

theorem strContains_self_right (pre s : String) : strContains (pre ++ s) s :=
  ⟨pre.data, [], by simp [String.data_append]⟩

theorem strContains_appendR (s t sub : String) (h : strContains s sub) :
    strContains (s ++ t) sub := by
  obtain ⟨a, b, hab⟩ := h
  exact ⟨a, b ++ t.data, by simp [String.data_append, hab]⟩

theorem strContains_appendL (s t sub : String) (h : strContains t sub) :
    strContains (s ++ t) sub := by
  obtain ⟨a, b, hab⟩ := h
  exact ⟨s.data ++ a, b, by simp [String.data_append, hab]⟩

theorem strContains_self_left (s suf : String) : strContains (s ++ suf) s :=
  ⟨[], suf.data, by simp [String.data_append]⟩

theorem strContains_empty (s : String) : strContains s "" :=
  ⟨[], s.data, by simp⟩

theorem mem_of_strContains {s sub : String} {c : Char} (h : strContains s sub)
    (hc : c ∈ sub.data) : c ∈ s.data := by
  obtain ⟨a, b, hab⟩ := h
  rw [hab]
  simp [hc]

/-! ### JSON values (the protocol's argument bundles and request bodies) -/

/-- JSON value, as delivered in `request.params.arguments` and sent as the
HTTP request body.  An absent object key models the JavaScript `undefined`;
`Json.null` models an explicit `null`. -/
inductive Json where
  | null
  | bool (b : Bool)
  | num (q : ℚ)
  | str (s : String)
  | arr (xs : List Json)
  | obj (fields : List (String × Json))

/-- First-occurrence key lookup in a JSON object (JavaScript objects have
unique keys; the first binding wins in this model). -/
def jLookup (key : String) : List (String × Json) → Option Json
  | [] => none
  | (k, v) :: rest => if k = key then some v else jLookup key rest

/-- Keys of a JSON object (empty for non-objects). -/
def jsonKeys : Json → List String
  | .obj fields => fields.map Prod.fst
  | _ => []

/-! ### Reports and the runtime environment -/

/-- The tool-call result handed back to the protocol layer: the single text
payload plus the `isError` flag (absent in the source's success returns,
modelled as `false`). -/
structure Report where
  text : String
  isError : Bool
  deriving Repr, DecidableEq

/-- Environment-provided locale formatting functions of the JavaScript
runtime: `Date#toLocaleDateString('fr-FR')`, `Date#toLocaleString('fr-FR')`
(both applied to the raw date string received from the backend) and
`Number#toLocaleString()`. -/
structure Runtime where
  fmtDate : String → String
  fmtDateTime : String → String
  fmtLocaleNum : ℚ → String

/-! ### Argument schemas (zod `safeParse` of `src/bin/start.js` lines 19-45)

Each parser models `Schema.safeParse(args)`: unknown extra fields are
ignored, declared defaults apply when a key is absent (`undefined`), and a
value of the wrong type (including `null`) is a failure.  The zod error
messages are modelled by short strings; the claims only inspect the messages
the handler adds around them. -/

/-- Arguments of `list_websites_by_user` (`z.object({})`, line 19). -/
structure ListWebsitesByUserArgs where
  deriving Repr, DecidableEq

/-- Arguments of `list_categories_by_website` (line 23). -/
structure ListCategoriesByWebsiteArgs where
  website_id : ℚ
  deriving Repr, DecidableEq

/-- Arguments of `list_keywords_by_website` (line 27). -/
structure ListKeywordsByWebsiteArgs where
  website_id : ℚ
  include_metrics : Bool
  deriving Repr, DecidableEq

/-- Arguments of `list_keywords_by_categories_by_website` (line 32). -/
structure ListKeywordsByCategoriesByWebsiteArgs where
  website_id : ℚ
  include_performance : Bool
  days : ℚ
  deriving Repr, DecidableEq

/-- Arguments of `get_website_performance_summary` (line 38). -/
structure WebsiteSummaryArgs where
  website_id : ℚ
  period : String
  start_date : Option String
  end_date : Option String
  compare_start_date : Option String
  compare_end_date : Option String
  deriving Repr, DecidableEq

def parseListWebsitesByUserArgs : Json → Except String ListWebsitesByUserArgs
  | .obj _ => .ok ⟨⟩
  | _ => .error "objet attendu"

def parseListCategoriesByWebsiteArgs : Json → Except String ListCategoriesByWebsiteArgs
  | .obj fields =>
    match jLookup "website_id" fields with
    | some (.num q) => .ok ⟨q⟩
    | some _ => .error "website_id: nombre attendu"
    | none => .error "website_id: requis"
  | _ => .error "objet attendu"

def parseListKeywordsByWebsiteArgs : Json → Except String ListKeywordsByWebsiteArgs
  | .obj fields =>
    match jLookup "website_id" fields with
    | some (.num q) =>
      match jLookup "include_metrics" fields with
      | none => .ok ⟨q, false⟩
      | some (.bool b) => .ok ⟨q, b⟩
      | some _ => .error "include_metrics: booléen attendu"
    | some _ => .error "website_id: nombre attendu"
    | none => .error "website_id: requis"
  | _ => .error "objet attendu"

def parseListKeywordsByCategoriesByWebsiteArgs :
    Json → Except String ListKeywordsByCategoriesByWebsiteArgs
  | .obj fields =>
    match jLookup "website_id" fields with
    | some (.num q) =>
      match jLookup "include_performance" fields with
      | none =>
        match jLookup "days" fields with
        | none => .ok ⟨q, true, 30⟩
        | some (.num d) => .ok ⟨q, true, d⟩
        | some _ => .error "days: nombre attendu"
      | some (.bool b) =>
        match jLookup "days" fields with
        | none => .ok ⟨q, b, 30⟩
        | some (.num d) => .ok ⟨q, b, d⟩
        | some _ => .error "days: nombre attendu"
      | some _ => .error "include_performance: booléen attendu"
    | some _ => .error "website_id: nombre attendu"
    | none => .error "website_id: requis"
  | _ => .error "objet attendu"

/-- Optional string field without a default (`z.string().optional()`). -/
def parseOptStr (key : String) (fields : List (String × Json)) :
    Except String (Option String)  :=
  match jLookup key fields with
  | none => .ok none
  | some (.str s) => .ok (some s)
  | some _ => .error (key ++ ": chaîne attendue")

def parseWebsiteSummaryArgs : Json → Except String WebsiteSummaryArgs
  | .obj fields =>
    match jLookup "website_id" fields with
    | some (.num q) =>
      match
        (match jLookup "period" fields with
          | none => .ok "30days"
          | some (.str s) => .ok s
          | some _ => .error "period: chaîne attendue" : Except String String) with
      | .error e => .error e
      | .ok period =>
        match parseOptStr "start_date" fields with
        | .error e => .error e
        | .ok sd =>
          match parseOptStr "end_date" fields with
          | .error e => .error e
          | .ok ed =>
            match parseOptStr "compare_start_date" fields with
            | .error e => .error e
            | .ok csd =>
              match parseOptStr "compare_end_date" fields with
              | .error e => .error e
              | .ok ced => .ok ⟨q, period, sd, ed, csd, ced⟩
    | some _ => .error "website_id: nombre attendu"
    | none => .error "website_id: requis"
  | _ => .error "objet attendu"

/-! JSON encodings of the validated argument records: the body of the HTTP
POST is `JSON.stringify(parsed.data)` (line 109); `undefined` optional
fields are dropped by `JSON.stringify`. -/

def encodeListWebsitesByUserArgs (_ : ListWebsitesByUserArgs) : Json := .obj []

def encodeListCategoriesByWebsiteArgs (p : ListCategoriesByWebsiteArgs) : Json :=
  .obj [("website_id", .num p.website_id)]

def encodeListKeywordsByWebsiteArgs (p : ListKeywordsByWebsiteArgs) : Json :=
  .obj [("website_id", .num p.website_id), ("include_metrics", .bool p.include_metrics)]

def encodeListKeywordsByCategoriesByWebsiteArgs
    (p : ListKeywordsByCategoriesByWebsiteArgs) : Json :=
  .obj [("website_id", .num p.website_id),
        ("include_performance", .bool p.include_performance),
        ("days", .num p.days)]

def encodeWebsiteSummaryArgs (p : WebsiteSummaryArgs) : Json :=
  .obj ([("website_id", .num p.website_id), ("period", .str p.period)]
    ++ (match p.start_date with | some s => [("start_date", .str s)] | none => [])
    ++ (match p.end_date with | some s => [("end_date", .str s)] | none => [])
    ++ (match p.compare_start_date with
        | some s => [("compare_start_date", .str s)] | none => [])
    ++ (match p.compare_end_date with
        | some s => [("compare_end_date", .str s)] | none => []))

/-! ### Backend data shapes (as read by the five formatters of the
refactored server, `src/bin/start.js` lines 164-462) -/

/-- One website entry (`result.websites[..]`, lines 176-178). -/
structure Website where
  id : ℤ
  domain : String
  is_favorite : Bool
  created_date : String
  deriving Repr, DecidableEq

/-- Data of `list_websites_by_user`. -/
structure WebsitesResult where
  user_id : ℤ
  websites_count : ℤ
  websites : List Website
  deriving Repr, DecidableEq

/-- One category entry of `list_categories_by_website` (lines 201-203). -/
structure CategoryEntry where
  name : String
  keywords_count : ℤ
  deriving Repr, DecidableEq

/-- Data of `list_categories_by_website`. -/
structure CategoriesResult where
  website_id : ℤ
  categories_count : ℤ
  categories : List CategoryEntry
  deriving Repr, DecidableEq

/-- One keyword of `list_keywords_by_website` (lines 228-239).  A falsy
`category_name` (absent, `null`, or the empty string) is modelled by `none`
or `some ""`; an absent `search_volume` behaves as `0` in the only uses
(truthiness tests and a guarded display). -/
structure SimpleKeyword where
  keyword : String
  category_name : Option String
  search_volume : ℚ
  deriving Repr, DecidableEq

/-- Data of `list_keywords_by_website`.  `include_metrics` is read back from
the backend data (line 237), not from the validated arguments. -/
structure KwListResult where
  website_id : ℤ
  keywords_count : ℤ
  include_metrics : Bool
  keywords : List SimpleKeyword
  deriving Repr, DecidableEq

/-- `performance_metrics` of one keyword (lines 302-308).  An absent or
`null` `position` is `none`. -/
structure PerfMetrics where
  has_data : Bool
  position : Option ℚ
  clicks : ℤ
  impressions : ℤ
  ctr : ℚ
  deriving Repr, DecidableEq

/-- One keyword of the by-categories tools (lines 298-315). -/
structure CatKeyword where
  keyword : String
  performance_metrics : Option PerfMetrics
  search_volume : ℚ
  deriving Repr, DecidableEq

/-- One category of the by-categories tools (lines 290-321). -/
structure PerfCategory where
  category_name : Option String
  keywords_count : ℤ
  keywords : List CatKeyword
  deriving Repr, DecidableEq

/-- `result.summary` of the by-categories tools (lines 277-278, 343-345). -/
structure KwCatsSummary where
  total_keywords : ℤ
  total_categories : ℤ
  uncategorized_keywords : ℤ
  deriving Repr, DecidableEq

/-- Data of `list_keywords_by_categories_by_website`.  `include_performance`
and `period_days` are echoed back by the backend (lines 276, 301, 340-341). -/
structure KwCatsResult where
  website_id : ℤ
  has_gsc_data : Bool
  period_days : ℤ
  include_performance : Bool
  summary : KwCatsSummary
  categories : List PerfCategory
  last_updated : String
  deriving Repr, DecidableEq

/-- A metric of `overall_metrics` that is either a plain number or an object
`{current, evolution_text}` (see `formatMetric`, lines 427-437). -/
inductive MetricVal where
  | num (n : ℚ)
  | obj (current : ℚ) (evolution_text : Option String)
  deriving Repr, DecidableEq

/-- `result.overall_metrics` of the performance summary (lines 446-450). -/
structure OverallMetrics where
  total_keywords : ℤ
  total_clicks : MetricVal
  total_impressions : MetricVal
  average_position : Option MetricVal
  average_ctr : Option MetricVal
  deriving Repr, DecidableEq

/-- `result.performance_changes.position_distribution` (lines 452-456). -/
structure PositionDistribution where
  top3 : ℤ
  top10 : ℤ
  top20 : ℤ
  top50 : ℤ
  top100 : ℤ
  deriving Repr, DecidableEq

/-- One of `result.top_performing_keywords` (lines 379-381). -/
structure TopKeyword where
  keyword : String
  position : ℚ
  clicks : ℤ
  deriving Repr, DecidableEq

/-- `result.period` of the summary (lines 385-389). -/
structure SummaryPeriod where
  start_date : String
  end_date : String
  days : ℤ
  deriving Repr, DecidableEq

/-- `result.compare_period` (lines 387-389). -/
structure ComparePeriod where
  start_date : String
  end_date : String
  deriving Repr, DecidableEq

/-- `cat.metrics.position` of a summary category (lines 401-406). -/
structure CatPositionMetric where
  current : Option ℚ
  compare : Option ℚ
  evolution : Option ℚ
  deriving Repr, DecidableEq

/-- `cat.metrics.clicks` / `cat.metrics.impressions` (lines 407-418):
a current value plus an `evolution_percent` that may be `null`. -/
structure CatCountMetric where
  current : ℤ
  evolution_percent : Option ℚ
  deriving Repr, DecidableEq

/-- `cat.metrics` of a summary category. -/
structure SummaryCatMetrics where
  position : CatPositionMetric
  clicks : CatCountMetric
  impressions : CatCountMetric
  deriving Repr, DecidableEq

/-- A named keyword of `cat.top_keywords` (line 420). -/
structure TopKwName where
  keyword : String
  deriving Repr, DecidableEq

/-- One of `result.categories` in the performance summary (lines 399-423). -/
structure SummaryCategory where
  category_name : String
  keywords_count : ℤ
  metrics : SummaryCatMetrics
  top_keywords : Option (List TopKwName)
  deriving Repr, DecidableEq

/-- Data of `get_website_performance_summary` (refactored server variant). -/
structure SummaryResult where
  website_id : ℤ
  has_data : Bool
  period_days : Option ℤ
  period : Option SummaryPeriod
  compare_period : Option ComparePeriod
  overall_metrics : OverallMetrics
  position_distribution : PositionDistribution
  top_performing_keywords : Option (List TopKeyword)
  categories : Option (List SummaryCategory)
  deriving Repr, DecidableEq

/-- The `data` field of a backend envelope.  `malformed` stands for a payload
whose shape does not match what the requested tool's formatter reads; on such
data the JavaScript formatter throws a `TypeError`, which the handler's
`catch` recovers. -/
inductive BackendData where
  | websites (r : WebsitesResult)
  | categoriesList (r : CategoriesResult)
  | kwList (r : KwListResult)
  | kwCats (r : KwCatsResult)
  | summary (r : SummaryResult)
  | malformed

/-- The backend's JSON envelope `{success, data, message?}`; an absent
`success` field is `none` and is falsy, exactly like `success: false`
(line 118). -/
structure Envelope where
  success : Option Bool
  message : Option String
  data : BackendData

/-- An HTTP response as seen through `fetch`: `response.ok` is derived from
the status (`200 ≤ status ≤ 299`), and `response.json()` is modelled as the
already-parsed envelope. -/
structure HttpResponse where
  status : ℕ
  statusText : String
  body : Envelope

/-- The external backend: one response per endpoint path and request body. -/
structure Backend where
  respond : String → Json → HttpResponse

/-! ### Backend gateway (`callReferencimeAPI`, lines 70-128) -/

/-- The static tool-name to endpoint-path table (lines 85-103); an unknown
name throws `Outil inconnu` before any request is issued. -/
def endpointFor (toolName : String) : Except String String :=
  if toolName = "list_websites_by_user" then .ok "/ai/list-websites-by-user"
  else if toolName = "list_categories_by_website" then .ok "/ai/list-categories-by-website"
  else if toolName = "list_keywords_by_website" then .ok "/ai/list-keywords-by-website"
  else if toolName = "list_keywords_by_categories_by_website" then
    .ok "/ai/list-keywords-by-categories-by-website"
  else if toolName = "get_website_performance_summary" then
    .ok "/ai/get-website-performance-summary"
  else .error ("Outil inconnu: " ++ toolName)

/-- `result.message || 'Erreur inconnue'` (line 119): the fallback also
applies to an empty (falsy) message. -/
def apiFailureMsg (message : Option String) : String :=
  match message with
  | some m => if m = "" then "Erreur inconnue" else m
  | none => "Erreur inconnue"

/-- The gateway call: resolve the endpoint, POST the body, fail on a non-2xx
status (line 112) or a non-`true` `success` (line 118), otherwise return the
`data` field.  The second component records the HTTP requests issued. -/
def callReferencimeAPI (env : Backend) (toolName : String) (body : Json) :
    Except String BackendData × List (String × Json) :=
  match endpointFor toolName with
  | .error e => (.error e, [])
  | .ok endpoint =>
    let response := env.respond endpoint body
    ((if 200 ≤ response.status ∧ response.status ≤ 299 then
        if response.body.success = some true then
          .ok response.body.data
        else
          .error ("Erreur dans la réponse API: " ++ apiFailureMsg response.body.message)
      else
        .error ("Erreur API WordPress: " ++ natDecimal response.status ++ " " ++
          response.statusText)),
     [(endpoint, body)])

/-! ### Grouping by category (`list_keywords_by_website`, lines 226-245)

`byCategory` is a plain JavaScript object used as a dictionary.  Rendering
iterates `Object.entries(byCategory)`, whose order follows the ECMAScript
own-property-key order: keys that are canonical array indices (a decimal
numeral without leading zeros, of value below `2^32 - 1`) come first in
ascending numeric order, all remaining string keys follow in insertion
order. -/

/-- `k.category_name || 'Non catégorisé'` (line 229): falsy category names
(absent, `null`, empty) fall back to the default label. -/
def catName (k : SimpleKeyword) : String :=
  match k.category_name with
  | some s => if s = "" then "Non catégorisé" else s
  | none => "Non catégorisé"

/-- Add one keyword under an own key: append to the existing entry, or
create the entry at the end (lines 230-231, the non-throwing case). -/
def objPush (o : List (String × List SimpleKeyword)) (c : String) (k : SimpleKeyword) :
    List (String × List SimpleKeyword) :=
  match o with
  | [] => [(c, [k])]
  | (c', ks) :: rest =>
    if c' = c then (c', ks ++ [k]) :: rest else (c', ks) :: objPush rest c k

/-- The own property names of `Object.prototype`: on a plain `{}` object, a
property read with one of these keys finds the inherited member (a function,
or the prototype object for the `__proto__` accessor), which is truthy. -/
def objectPrototypeKeys : List String :=
  ["constructor", "toString", "toLocaleString", "valueOf", "hasOwnProperty",
   "isPrototypeOf", "propertyIsEnumerable", "__proto__",
   "__defineGetter__", "__defineSetter__", "__lookupGetter__", "__lookupSetter__"]

/-- Whether `byCategory[c]` on a plain object without an own key `c` yields
a truthy inherited value. -/
def protoTruthy (c : String) : Bool :=
  decide (c ∈ objectPrototypeKeys)

/-- One iteration of the `forEach` (lines 228-232) on the plain object:
an own key holds one of our arrays (truthy), so `push` appends; an absent
own key whose lookup hits a truthy `Object.prototype` member skips the
`byCategory[catName] = []` initialization and the following
`byCategory[catName].push(k)` throws a `TypeError`; otherwise the lookup is
`undefined` (falsy), the entry is created and the keyword pushed. -/
def byCategoryStep (o : List (String × List SimpleKeyword)) (k : SimpleKeyword) :
    Except String (List (String × List SimpleKeyword)) :=
  let c := catName k
  if c ∈ o.map Prod.fst then .ok (objPush o c k)
  else if protoTruthy c then
    .error "TypeError: byCategory[catName].push is not a function"
  else .ok (objPush o c k)

def byCategoryAux : List (String × List SimpleKeyword) → List SimpleKeyword →
    Except String (List (String × List SimpleKeyword))
  | o, [] => .ok o
  | o, k :: rest =>
    match byCategoryStep o k with
    | .error e => .error e
    | .ok o' => byCategoryAux o' rest

/-- The `byCategory` plain-object dictionary (lines 227-232): the own
entries in insertion order, or the thrown `TypeError` when a category label
names an `Object.prototype` member. -/
def byCategory (kws : List SimpleKeyword) :
    Except String (List (String × List SimpleKeyword)) :=
  byCategoryAux [] kws

/-- The grouping as an ideal own-key dictionary — the value `byCategory`
computes whenever no label collides with `Object.prototype`. -/
def groupIdeal (kws : List SimpleKeyword) : List (String × List SimpleKeyword) :=
  kws.foldl (fun o k => objPush o (catName k) k) []

/-- Value stored under a key (first binding), `[]` when absent. -/
def groupLookup (c : String) : List (String × List SimpleKeyword) → List SimpleKeyword
  | [] => []
  | (c', ks) :: rest => if c' = c then ks else groupLookup c rest

/-- Numeric value of a digit string. -/
def strToNat (s : String) : ℕ :=
  s.data.foldl (fun n c => n * 10 + (c.toNat - 48)) 0

/-- Canonical array-index key of a JavaScript object: digits only, no
leading zero (except `"0"` itself), value below `2^32 - 1`. -/
def isArrayIndexKey (s : String) : Bool :=
  !s.data.isEmpty && s.data.all Char.isDigit &&
    (s.data = ['0'] || s.data.head? ≠ some '0') && strToNat s < 4294967295

/-- Stable insertion into a list sorted by numeric key value. -/
def insertByKey {α : Type} (p : String × α) : List (String × α) → List (String × α)
  | [] => [p]
  | q :: rest =>
    if strToNat p.1 ≤ strToNat q.1 then p :: q :: rest else q :: insertByKey p rest

/-- Sort entries by ascending numeric key value. -/
def sortByKey {α : Type} (l : List (String × α)) : List (String × α) :=
  l.foldr insertByKey []

/-- `Object.entries` enumeration order (ECMAScript own-property-key order):
array-index keys in ascending numeric order first, then the remaining keys
in insertion order. -/
def jsEntries {α : Type} (o : List (String × α)) : List (String × α) :=
  sortByKey (o.filter fun p => isArrayIndexKey p.1) ++
    o.filter fun p => !(isArrayIndexKey p.1)

/-! ### Formatter of `list_keywords_by_website` (lines 224-258) -/

/-- One keyword line (lines 235-240): the search volume is appended when
`result.include_metrics` and the volume are truthy. -/
def simpleKeywordLine (rt : Runtime) (includeMetrics : Bool) (k : SimpleKeyword) : String :=
  "   • " ++ k.keyword ++
    (if includeMetrics ∧ k.search_volume ≠ 0 then
      " (Vol: " ++ rt.fmtLocaleNum k.search_volume ++ ")"
    else "")

/-- `keywords.slice(0, 20).map(..)` (line 235): the displayed entries of one
category group, capped at 20. -/
def groupKeywordLines (rt : Runtime) (includeMetrics : Bool)
    (keywords : List SimpleKeyword) : List String :=
  (keywords.take 20).map (simpleKeywordLine rt includeMetrics)

/-- The trailing truncation note of one group (line 243). -/
def groupTruncated (keywords : List SimpleKeyword) : String :=
  if keywords.length > 20 then
    "\n   ... et " ++ natDecimal (keywords.length - 20) ++ " autres mots-clés"
  else ""

/-- One rendered category group (lines 234-244). -/
def renderGroup (rt : Runtime) (includeMetrics : Bool) (c : String)
    (keywords : List SimpleKeyword) : String :=
  "\n**" ++ c ++ "** (" ++ natDecimal keywords.length ++ " mots-clés):\n" ++
    String.intercalate "\n" (groupKeywordLines rt includeMetrics keywords) ++
    groupTruncated keywords

/-- Full report text of `list_keywords_by_website` (lines 224-258): the
grouping runs first (lines 227-232) and its `TypeError` propagates to the
handler's catch; on success the groups are rendered in `Object.entries`
order. -/
def formatKwList (rt : Runtime) : BackendData → Except String Report
  | .kwList r =>
    match byCategory r.keywords with
    | .error e => .error e
    | .ok groups =>
      let keywordsList := String.intercalate "\n"
        ((jsEntries groups).map fun p =>
          renderGroup rt r.include_metrics p.1 p.2)
      .ok ⟨"🔤 **MOTS-CLÉS - SITE #" ++ intStr r.website_id ++ "**\n\n" ++
            "📊 **Total mots-clés :** " ++ intStr r.keywords_count ++ "\n" ++
            "📈 **Volumes de recherche :** " ++
            (if r.include_metrics then "Inclus" else "Non inclus") ++ "\n" ++
            keywordsList ++ "\n\n" ++
            "💡 **Astuce :** Utilisez list_keywords_by_categories_by_website pour des métriques de performance détaillées.",
          false⟩
  | _ => .error "TypeError: format de données inattendu"

/-! ### Formatter of `list_keywords_by_categories_by_website`
(lines 261-354), shared statistics also used by the legacy server's
`get_keywords_by_categories` (lines 957-1052) -/

/-- `#${perf.position || 'N/A'}` (line 304): a falsy position (absent,
`null`, `0`) displays as `N/A`. -/
def posStr (perf : PerfMetrics) : String :=
  match perf.position with
  | some p => if p = 0 then "N/A" else qStr p
  | none => "N/A"

/-- The CTR field of a keyword line (line 305): present only when
`perf.ctr > 0`. -/
def ctrSegment (perf : PerfMetrics) : String :=
  if perf.ctr > 0 then " | CTR: " ++ toFixed1 (perf.ctr * 100) ++ "%" else ""

/-- The GSC metrics segment of a keyword line (lines 303-308). -/
def perfSegment (perf : PerfMetrics) : String :=
  if perf.has_data then
    " | #" ++ posStr perf ++ " | " ++ intStr perf.clicks ++ " clics | " ++
      intStr perf.impressions ++ " impr" ++ ctrSegment perf
  else " | Pas de données GSC"

/-- The trailing search-volume segment (lines 311-313). -/
def volSegment (rt : Runtime) (k : CatKeyword) : String :=
  if k.search_volume > 0 then " | Vol: " ++ rt.fmtLocaleNum k.search_volume else ""

/-- One keyword line of `list_keywords_by_categories_by_website`
(lines 298-315). -/
def renderPerfKeywordLine (rt : Runtime) (includePerf : Bool) (k : CatKeyword) : String :=
  "   • **" ++ k.keyword ++ "**" ++
    (if includePerf then
      match k.performance_metrics with
      | some perf => perfSegment perf
      | none => ""
    else "") ++
    volSegment rt k

/-- The GSC metrics segment in the legacy server's keyword line
(lines 999-1006): identical logic, `Pos: #` caption. -/
def perfSegmentLegacy (perf : PerfMetrics) : String :=
  if perf.has_data then
    " | Pos: #" ++ posStr perf ++ " | " ++ intStr perf.clicks ++ " clics | " ++
      intStr perf.impressions ++ " impr" ++ ctrSegment perf
  else " | Pas de données GSC"

/-- One keyword line of the legacy server's `get_keywords_by_categories`
(lines 994-1013). -/
def renderPerfKeywordLineLegacy (rt : Runtime) (includePerf : Bool) (k : CatKeyword) : String :=
  "   • **" ++ k.keyword ++ "**" ++
    (if includePerf then
      match k.performance_metrics with
      | some perf => perfSegmentLegacy perf
      | none => ""
    else "") ++
    volSegment rt k

/-- `category.keywords.slice(0, 10).map(..)` (line 298): the displayed
keyword entries of one category, capped at 10. -/
def catKeywordLines (rt : Runtime) (includePerf : Bool) (c : PerfCategory) : List String :=
  (c.keywords.take 10).map (renderPerfKeywordLine rt includePerf)

/-- The truncation note of one category (lines 318-319): driven by the
backend-supplied `keywords_count`. -/
def catTruncated (c : PerfCategory) : String :=
  if c.keywords_count > 10 then
    "\n   ... et " ++ intStr (c.keywords_count - 10) ++ " autres"
  else ""

/-- One rendered category block (lines 290-321).  `(category.category_name
|| 'Sans nom')` falls back on a falsy name; `toUpperCase` is modelled by
`String.toUpper`. -/
def renderPerfCategory (rt : Runtime) (includePerf : Bool) (c : PerfCategory) : String :=
  let header := "\n🗂️ **" ++
    (match c.category_name with
      | some s => if s = "" then "SANS NOM" else s.toUpper
      | none => "SANS NOM") ++
    "** (" ++ intStr c.keywords_count ++ " mots-clés)\n" ++
    String.mk (List.replicate 50 '─') ++ "\n"
  if c.keywords_count = 0 then header ++ "   • Aucun mot-clé\n"
  else
    header ++ String.intercalate "\n" (catKeywordLines rt includePerf c) ++
      catTruncated c ++ "\n"

/-- `k.performance_metrics?.position > 0` (lines 326, 331): the keyword
carries a usable position metric. -/
def hasPos (k : CatKeyword) : Bool :=
  match k.performance_metrics with
  | some pm =>
    match pm.position with
    | some p => decide (0 < p)
    | none => false
  | none => false

/-- The position value read off a keyword (line 332). -/
def posVal (k : CatKeyword) : ℚ :=
  match k.performance_metrics with
  | some pm => pm.position.getD 0
  | none => 0

/-- `totalWithPosition` (lines 325-327): how many keywords across all
categories carry a position. -/
def totalWithPosition (cats : List PerfCategory) : ℕ :=
  (cats.foldr (fun c acc => c.keywords.filter hasPos ++ acc) []).length

/-- `avgPosition` (lines 329-333): the mean position over the keywords that
carry one, `null` (`none`) when there are none. -/
def avgPosition (cats : List PerfCategory) : Option ℚ :=
  if totalWithPosition cats > 0 then
    some (((cats.foldr (fun c acc => (c.keywords.filter hasPos).map posVal ++ acc) []).foldl
        (· + ·) 0) / (totalWithPosition cats : ℚ))
  else none

/-- The average-position summary line (line 347): rendered only when
`avgPosition` is truthy (neither `null` nor `0`). -/
def avgPositionLine (cats : List PerfCategory) : String :=
  match avgPosition cats with
  | some a => if a = 0 then "" else "• Position moyenne : #" ++ toFixed1 a ++ "\n"
  | none => ""

/-- Full report text of `list_keywords_by_categories_by_website`
(lines 267-354), including the no-GSC-data variant (lines 269-287). -/
def formatKwCats (rt : Runtime) : BackendData → Except String Report
  | .kwCats r =>
    if ¬ r.has_gsc_data then
      .ok ⟨"📂 **MOTS-CLÉS PAR CATÉGORIES - SITE #" ++ intStr r.website_id ++ "**\n\n" ++
            "⚠️ **Données GSC non disponibles**\n\n" ++
            "📊 **Période :** " ++ intStr r.period_days ++ " jours\n" ++
            "📈 **Total mots-clés :** " ++ intStr r.summary.total_keywords ++ "\n" ++
            "🗂️ **Catégories :** " ++ intStr r.summary.total_categories ++ "\n\n" ++
            "💡 **Cause :** Pas de propriété Google Search Console associée.\n\n" ++
            "📋 **Structure :**\n" ++
            String.intercalate "\n" (r.categories.map fun cat =>
              "• **" ++ (match cat.category_name with
                          | some s => s
                          | none => "undefined") ++ "**: " ++
                intStr cat.keywords_count ++ " mots-clés"),
          false⟩
    else
      let categoriesText :=
        String.join (r.categories.map (renderPerfCategory rt r.include_performance))
      .ok ⟨"📂 **MOTS-CLÉS PAR CATÉGORIES - SITE #" ++ intStr r.website_id ++ "**\n\n" ++
            "📅 **Période :** " ++ intStr r.period_days ++ " jours\n" ++
            "📊 **Métriques GSC :** " ++
            (if r.include_performance then "Incluses" else "Désactivées") ++ "\n\n" ++
            "📈 **Résumé :**\n" ++
            "• Total mots-clés : " ++ rt.fmtLocaleNum (r.summary.total_keywords : ℚ) ++ "\n" ++
            "• Catégories : " ++ intStr r.summary.total_categories ++ "\n" ++
            "• Non catégorisés : " ++ intStr r.summary.uncategorized_keywords ++ "\n" ++
            "• Avec position GSC : " ++ natDecimal (totalWithPosition r.categories) ++ "\n" ++
            avgPositionLine r.categories ++
            "\n" ++ categoriesText ++ "\n" ++
            "📅 **MAJ :** " ++ rt.fmtDateTime r.last_updated ++ "\n\n" ++
            "💡 **Astuce :** Identifiez vos thématiques SEO les plus performantes !",
          false⟩
  | _ => .error "TypeError: format de données inattendu"

/-! ### Formatter of `list_websites_by_user` (lines 175-191) -/

def formatWebsites (rt : Runtime) : BackendData → Except String Report
  | .websites r =>
    let websitesList := String.intercalate "\n" (r.websites.map fun w =>
      "• **" ++ w.domain ++ "** (ID: " ++ intStr w.id ++ ")" ++
        (if w.is_favorite then " ⭐" else "") ++
        " - Créé le " ++ rt.fmtDate w.created_date)
    .ok ⟨"🌐 **VOS SITES WEB REFERENCIME**\n\n" ++
          "👤 **Utilisateur ID :** " ++ intStr r.user_id ++ "\n" ++
          "📊 **Nombre de sites :** " ++ intStr r.websites_count ++ "\n\n" ++
          "📋 **Liste des sites :**\n" ++ websitesList ++ "\n\n" ++
          "💡 **Utilisation :** Utilisez l\x27ID du site dans les autres outils d\x27analyse SEO.",
        false⟩
  | _ => .error "TypeError: format de données inattendu"

/-! ### Formatter of `list_categories_by_website` (lines 200-215) -/

def formatCategories (_ : Runtime) : BackendData → Except String Report
  | .categoriesList r =>
    let categoriesList := String.intercalate "\n" (r.categories.map fun c =>
      "• **" ++ c.name ++ "** (" ++ intStr c.keywords_count ++ " mots-clés)")
    .ok ⟨"🗂️ **CATÉGORIES DE MOTS-CLÉS - SITE #" ++ intStr r.website_id ++ "**\n\n" ++
          "📊 **Nombre de catégories :** " ++ intStr r.categories_count ++ "\n\n" ++
          "📋 **Liste des catégories :**\n" ++ categoriesList ++ "\n\n" ++
          "💡 **Organisation :** Catégorisez vos mots-clés par thème pour une meilleure stratégie SEO.",
        false⟩
  | _ => .error "TypeError: format de données inattendu"

/-! ### Formatter of `get_website_performance_summary` (lines 362-461) -/

/-- JavaScript truthiness on an optional number: `0` and absence are falsy. -/
def truthyQ (a : Option ℚ) : Option ℚ :=
  match a with
  | some d => if d = 0 then none else some d
  | none => none

/-- JavaScript truthiness on an optional integer. -/
def truthyInt (a : Option ℤ) : Option ℤ :=
  match a with
  | some d => if d = 0 then none else some d
  | none => none

/-- `${result.period_days || result.period?.days || 'N/A'}` (line 371). -/
def periodDaysNoDataDisp (r : SummaryResult) : String :=
  match truthyInt r.period_days with
  | some d => intStr d
  | none =>
    match truthyInt (r.period.map (·.days)) with
    | some d => intStr d
    | none => "N/A"

/-- Interpolation of a possibly-undefined integer (an absent value prints
the literal `undefined`, as JavaScript template strings do). -/
def optIntStr (a : Option ℤ) : String :=
  match a with
  | some d => intStr d
  | none => "undefined"

/-- `result.top_performing_keywords?.map(..).join('\n') || 'Aucun'`
(lines 379-381): falls back when the list is absent or joins to the empty
string. -/
def topKwText (r : SummaryResult) : String :=
  match r.top_performing_keywords with
  | none => "Aucun"
  | some l =>
    let s := String.intercalate "\n" (l.map fun k =>
      "• " ++ k.keyword ++ " (#" ++ toFixed1 k.position ++ ", " ++ intStr k.clicks ++ " clics)")
    if s = "" then "Aucun" else s

/-- `dateInfo` (lines 384-393). -/
def summaryDateInfo (r : SummaryResult) : String :=
  match r.period with
  | some p =>
    "📅 **Période :** du " ++ p.start_date ++ " au " ++ p.end_date ++
      " (" ++ intStr p.days ++ " jours)" ++
      (match r.compare_period with
        | some cp => "\n📅 **Comparaison :** du " ++ cp.start_date ++ " au " ++ cp.end_date
        | none => "")
  | none => "📅 **Période :** " ++ optIntStr r.period_days ++ " jours"

/-- Evolution marker of a category position (lines 403-405). -/
def positionEvolutionText (evol : ℚ) : String :=
  if evol > 0 then "📈 +" ++ qStr evol
  else if evol < 0 then "📉 " ++ qStr evol
  else "➡️ ="

/-- Percentage evolution suffix of clicks/impressions (lines 408-418):
shown unless `evolution_percent` is `null`. -/
def evolutionPercentText (e : Option ℚ) : String :=
  match e with
  | some evol => " (" ++ (if evol ≥ 0 then "+" else "") ++ toFixed1 evol ++ "%)"
  | none => ""

/-- One category block of `categoriesSection` (lines 399-423); `index` is
the 0-based position in the list. -/
def renderSummaryCategory (rt : Runtime) (index : ℕ) (cat : SummaryCategory) : String :=
  "**" ++ natDecimal (index + 1) ++ ". " ++ cat.category_name ++ "** (" ++
    intStr cat.keywords_count ++ " mots-clés)\n" ++
  "   • Position moyenne : " ++
    (match truthyQ cat.metrics.position.current with
      | some c => "#" ++ qStr c
      | none => "N/A") ++
    (match truthyQ cat.metrics.position.compare, truthyQ cat.metrics.position.evolution with
      | some _, some evol => " (" ++ positionEvolutionText evol ++ " vs période précédente)"
      | _, _ => "") ++
  "\n   • Clics : " ++ intStr cat.metrics.clicks.current ++
    evolutionPercentText cat.metrics.clicks.evolution_percent ++
  "\n   • Impressions : " ++ rt.fmtLocaleNum (cat.metrics.impressions.current : ℚ) ++
    evolutionPercentText cat.metrics.impressions.evolution_percent ++
  (match cat.top_keywords with
    | some tk =>
      if tk.length > 0 then
        "\n   🏆 Top mots-clés : " ++ String.intercalate ", " ((tk.take 3).map (·.keyword))
      else ""
    | none => "") ++
  "\n\n"

/-- `categoriesSection` (lines 396-424). -/
def summaryCategoriesSection (rt : Runtime) (r : SummaryResult) : String :=
  match r.categories with
  | some cats =>
    if cats.length > 0 then
      "\n\n📂 **PERFORMANCES PAR CATÉGORIE :**\n\n" ++
        String.join ((cats.enum.map fun p => renderSummaryCategory rt p.1 p.2))
    else ""
  | none => ""

/-- `formatMetric` (lines 427-437): a plain number is locale-formatted; an
object shows `current` plus a truthy `evolution_text`. -/
def formatMetric (rt : Runtime) : MetricVal → String
  | .num n => rt.fmtLocaleNum n
  | .obj current evo =>
    rt.fmtLocaleNum current ++
      (match evo with
        | some t => if t = "" then "" else " (" ++ t ++ ")"
        | none => "")

/-- The average-position cell (line 449). -/
def summaryAvgPositionDisp (m : Option MetricVal) : String :=
  match m with
  | none => "N/A"
  | some (.num n) => if n = 0 then "N/A" else "#" ++ qStr n
  | some (.obj current evo) =>
    "#" ++ qStr current ++
      (match evo with
        | some t => if t = "" then "" else " (" ++ t ++ ")"
        | none => "")

/-- The average-CTR cell (line 450). -/
def summaryAvgCtrDisp (m : Option MetricVal) : String :=
  match m with
  | none => "N/A"
  | some (.num n) => if n = 0 then "N/A" else toFixed2 (n * 100) ++ "%"
  | some (.obj current evo) =>
    toFixed2 (current * 100) ++ "%" ++
      (match evo with
        | some t => if t = "" then "" else " (" ++ t ++ ")"
        | none => "")

/-- Full report text of `get_website_performance_summary` (lines 362-461),
including the no-data variant (lines 364-377). -/
def formatSummary (rt : Runtime) : BackendData → Except String Report
  | .summary r =>
    if ¬ r.has_data then
      .ok ⟨"🌐 **TABLEAU DE BORD SEO - SITE #" ++ intStr r.website_id ++ "**\n\n" ++
            "⚠️ **Aucune donnée disponible**\n\n" ++
            "📊 **Période :** " ++ periodDaysNoDataDisp r ++ " jours\n" ++
            "📈 **Mots-clés :** " ++ intStr r.overall_metrics.total_keywords ++ "\n\n" ++
            "💡 **Cause :** Pas de propriété GSC ou données non disponibles.",
          false⟩
    else
      .ok ⟨"🌐 **TABLEAU DE BORD SEO - SITE #" ++ intStr r.website_id ++ "**\n\n" ++
            summaryDateInfo r ++ "\n\n" ++
            "📊 **Métriques globales :**\n" ++
            "• Mots-clés suivis : " ++ intStr r.overall_metrics.total_keywords ++ "\n" ++
            "• Total clics : " ++ formatMetric rt r.overall_metrics.total_clicks ++ "\n" ++
            "• Total impressions : " ++ formatMetric rt r.overall_metrics.total_impressions ++ "\n" ++
            "• Position moyenne : " ++ summaryAvgPositionDisp r.overall_metrics.average_position ++ "\n" ++
            "• CTR moyen : " ++ summaryAvgCtrDisp r.overall_metrics.average_ctr ++ "\n\n" ++
            "📈 **Distribution des positions :**\n" ++
            "• Top 3 : " ++ intStr r.position_distribution.top3 ++ " mots-clés\n" ++
            "• Top 10 : " ++ intStr r.position_distribution.top10 ++ " mots-clés\n" ++
            "• Top 20 : " ++ intStr r.position_distribution.top20 ++ " mots-clés\n" ++
            "• Top 50 : " ++ intStr r.position_distribution.top50 ++ " mots-clés\n" ++
            "• Top 100 : " ++ intStr r.position_distribution.top100 ++ " mots-clés\n\n" ++
            "🏆 **Top performeurs :**\n" ++ topKwText r ++
            summaryCategoriesSection rt r,
          false⟩
  | _ => .error "TypeError: format de données inattendu"

/-! ### The dispatcher (`CallToolRequestSchema` handler, lines 164-481) -/

/-- One `case` of the handler's `switch` (e.g. lines 218-259): validate,
call the gateway with the validated data, format.  A validation failure
throws `Arguments invalides pour <tool>` before any request is issued. -/
def toolStep {α : Type} (env : Backend) (toolName : String)
    (parse : Json → Except String α) (encode : α → Json)
    (format : BackendData → Except String Report) (args : Json) :
    Except String Report × List (String × Json) :=
  match parse args with
  | .error e => (.error ("Arguments invalides pour " ++ toolName ++ ": " ++ e), [])
  | .ok p =>
    match callReferencimeAPI env toolName (encode p) with
    | (.error e, reqs) => (.error e, reqs)
    | (.ok data, reqs) => (format data, reqs)

/-- The body of the handler's `try` block: the `switch` over the five tool
names, with the `Outil inconnu` default (line 465). -/
def handlerBody (rt : Runtime) (env : Backend) (name : String) (args : Json) :
    Except String Report × List (String × Json) :=
  if name = "list_websites_by_user" then
    toolStep env name parseListWebsitesByUserArgs encodeListWebsitesByUserArgs
      (formatWebsites rt) args
  else if name = "list_categories_by_website" then
    toolStep env name parseListCategoriesByWebsiteArgs encodeListCategoriesByWebsiteArgs
      (formatCategories rt) args
  else if name = "list_keywords_by_website" then
    toolStep env name parseListKeywordsByWebsiteArgs encodeListKeywordsByWebsiteArgs
      (formatKwList rt) args
  else if name = "list_keywords_by_categories_by_website" then
    toolStep env name parseListKeywordsByCategoriesByWebsiteArgs
      encodeListKeywordsByCategoriesByWebsiteArgs (formatKwCats rt) args
  else if name = "get_website_performance_summary" then
    toolStep env name parseWebsiteSummaryArgs encodeWebsiteSummaryArgs
      (formatSummary rt) args
  else (.error ("Outil inconnu: " ++ name), [])

/-- The uniform error report built by the handler's `catch` (lines 467-480). -/
def mkErrorReport (msg : String) : Report :=
  ⟨"❌ **Erreur**: " ++ msg, true⟩

/-- The complete handler: the `try` body with the `catch` recovering every
thrown error into an error-flagged text report.  The second component lists
the HTTP requests issued while handling the call. -/
def handleCallTool (rt : Runtime) (env : Backend) (name : String) (args : Json) :
    Report × List (String × Json) :=
  match handlerBody rt env name args with
  | (.ok r, reqs) => (r, reqs)
  | (.error msg, reqs) => (mkErrorReport msg, reqs)

/-- The five tool names declared by the refactored server (lines 131-161). -/
def declaredTools : List String :=
  ["list_websites_by_user", "list_categories_by_website", "list_keywords_by_website",
   "list_keywords_by_categories_by_website", "get_website_performance_summary"]

/-! ### General lemmas about the dispatcher -/

theorem handleCallTool_of_error {rt : Runtime} {env : Backend} {name : String} {args : Json}
    {msg : String} {reqs : List (String × Json)}
    (h : handlerBody rt env name args = (.error msg, reqs)) :
    handleCallTool rt env name args = (mkErrorReport msg, reqs) := by
  unfold handleCallTool
  rw [h]

theorem handleCallTool_of_ok {rt : Runtime} {env : Backend} {name : String} {args : Json}
    {r : Report} {reqs : List (String × Json)}
    (h : handlerBody rt env name args = (.ok r, reqs)) :
    handleCallTool rt env name args = (r, reqs) := by
  unfold handleCallTool
  rw [h]

theorem handlerBody_websites (rt : Runtime) (env : Backend) (args : Json) :
    handlerBody rt env "list_websites_by_user" args =
      toolStep env "list_websites_by_user" parseListWebsitesByUserArgs
        encodeListWebsitesByUserArgs (formatWebsites rt) args := rfl

theorem handlerBody_categories (rt : Runtime) (env : Backend) (args : Json) :
    handlerBody rt env "list_categories_by_website" args =
      toolStep env "list_categories_by_website" parseListCategoriesByWebsiteArgs
        encodeListCategoriesByWebsiteArgs (formatCategories rt) args := rfl

theorem handlerBody_kwList (rt : Runtime) (env : Backend) (args : Json) :
    handlerBody rt env "list_keywords_by_website" args =
      toolStep env "list_keywords_by_website" parseListKeywordsByWebsiteArgs
        encodeListKeywordsByWebsiteArgs (formatKwList rt) args := rfl

theorem handlerBody_kwCats (rt : Runtime) (env : Backend) (args : Json) :
    handlerBody rt env "list_keywords_by_categories_by_website" args =
      toolStep env "list_keywords_by_categories_by_website"
        parseListKeywordsByCategoriesByWebsiteArgs
        encodeListKeywordsByCategoriesByWebsiteArgs (formatKwCats rt) args := rfl

theorem handlerBody_summary (rt : Runtime) (env : Backend) (args : Json) :
    handlerBody rt env "get_website_performance_summary" args =
      toolStep env "get_website_performance_summary" parseWebsiteSummaryArgs
        encodeWebsiteSummaryArgs (formatSummary rt) args := rfl

theorem toolStep_parse_error {α : Type} {env : Backend} {toolName : String}
    {parse : Json → Except String α} {encode : α → Json}
    {format : BackendData → Except String Report} {args : Json} {e : String}
    (h : parse args = .error e) :
    toolStep env toolName parse encode format args =
      (.error ("Arguments invalides pour " ++ toolName ++ ": " ++ e), []) := by
  unfold toolStep
  rw [h]

theorem toolStep_gateway_error {α : Type} {env : Backend} {toolName : String}
    {parse : Json → Except String α} {encode : α → Json}
    {format : BackendData → Except String Report} {args : Json} {p : α}
    {e : String} {reqs : List (String × Json)}
    (hp : parse args = .ok p)
    (hc : callReferencimeAPI env toolName (encode p) = (.error e, reqs)) :
    toolStep env toolName parse encode format args = (.error e, reqs) := by
  unfold toolStep
  rw [hp]
  dsimp only
  rw [hc]

theorem toolStep_format {α : Type} {env : Backend} {toolName : String}
    {parse : Json → Except String α} {encode : α → Json}
    {format : BackendData → Except String Report} {args : Json} {p : α}
    {d : BackendData} {reqs : List (String × Json)}
    (hp : parse args = .ok p)
    (hc : callReferencimeAPI env toolName (encode p) = (.ok d, reqs)) :
    toolStep env toolName parse encode format args = (format d, reqs) := by
  unfold toolStep
  rw [hp]
  dsimp only
  rw [hc]

theorem callReferencimeAPI_status_error (env : Backend) (toolName : String) (body : Json)
    (ep : String) (hep : endpointFor toolName = .ok ep)
    (hstatus : ¬ (200 ≤ (env.respond ep body).status ∧ (env.respond ep body).status ≤ 299)) :
    callReferencimeAPI env toolName body =
      (.error ("Erreur API WordPress: " ++ natDecimal (env.respond ep body).status ++ " " ++
        (env.respond ep body).statusText), [(ep, body)]) := by
  unfold callReferencimeAPI
  rw [hep]
  simp only [if_neg hstatus]

theorem callReferencimeAPI_app_error (env : Backend) (toolName : String) (body : Json)
    (ep : String) (hep : endpointFor toolName = .ok ep)
    (hstatus : 200 ≤ (env.respond ep body).status ∧ (env.respond ep body).status ≤ 299)
    (hsucc : ¬ (env.respond ep body).body.success = some true) :
    callReferencimeAPI env toolName body =
      (.error ("Erreur dans la réponse API: " ++
        apiFailureMsg (env.respond ep body).body.message), [(ep, body)]) := by
  unfold callReferencimeAPI
  rw [hep]
  simp only [if_pos hstatus, if_neg hsucc]

theorem callReferencimeAPI_ok (env : Backend) (toolName : String) (body : Json)
    (ep : String) (hep : endpointFor toolName = .ok ep)
    (hstatus : 200 ≤ (env.respond ep body).status ∧ (env.respond ep body).status ≤ 299)
    (hsucc : (env.respond ep body).body.success = some true) :
    callReferencimeAPI env toolName body = (.ok (env.respond ep body).body.data, [(ep, body)]) := by
  unfold callReferencimeAPI
  rw [hep]
  simp only [if_pos hstatus, if_pos hsucc]

theorem mkErrorReport_contains (msg : String) : strContains (mkErrorReport msg).text msg := by
  unfold mkErrorReport
  exact strContains_self_right _ _

/-! ### Concrete fixtures used by the witnesses -/

/-- A concrete runtime (identity locale formatting). -/
def rt0 : Runtime := ⟨fun s => s, fun s => s, fun _ => "0"⟩

/-- A backend answering every request with HTTP 502. -/
def env502 : Backend :=
  ⟨fun _ _ => ⟨502, "Bad Gateway", ⟨some true, none, .malformed⟩⟩⟩

/-- A backend answering 200 with `success: false` and a message. -/
def envAppFail : Backend :=
  ⟨fun _ _ => ⟨200, "OK", ⟨some false, some "quota dépassé", .malformed⟩⟩⟩

/-- A valid argument object for the website-scoped tools. -/
def argsSite7 : Json := .obj [("website_id", .num 7)]

/-! ### Claim C5 -/

/-- Claim C5: for every backend HTTP response whose status lies outside the
success range `200..299`, the gateway fails with
`Erreur API WordPress: <status> <statusText>` (carrying status and status
text), and — shown on the full `list_keywords_by_website` pipeline — the
resulting report is error-flagged and its text contains the decimal status
code. -/
theorem claim5_http_status_error :
    (∀ (env : Backend) (toolName : String) (body : Json) (ep : String),
      endpointFor toolName = .ok ep →
      ¬ (200 ≤ (env.respond ep body).status ∧ (env.respond ep body).status ≤ 299) →
      callReferencimeAPI env toolName body =
        (.error ("Erreur API WordPress: " ++ natDecimal (env.respond ep body).status ++ " " ++
          (env.respond ep body).statusText), [(ep, body)]))
    ∧
    (∀ (rt : Runtime) (env : Backend) (args : Json) (p : ListKeywordsByWebsiteArgs),
      parseListKeywordsByWebsiteArgs args = .ok p →
      ¬ (200 ≤ (env.respond "/ai/list-keywords-by-website"
            (encodeListKeywordsByWebsiteArgs p)).status ∧
          (env.respond "/ai/list-keywords-by-website"
            (encodeListKeywordsByWebsiteArgs p)).status ≤ 299) →
      (handleCallTool rt env "list_keywords_by_website" args).1.isError = true ∧
      strContains (handleCallTool rt env "list_keywords_by_website" args).1.text
        (natDecimal (env.respond "/ai/list-keywords-by-website"
          (encodeListKeywordsByWebsiteArgs p)).status)) := by
  constructor
  · intro env toolName body ep hep hstatus
    exact callReferencimeAPI_status_error env toolName body ep hep hstatus
  · intro rt env args p hp hstatus
    have hc := callReferencimeAPI_status_error env "list_keywords_by_website"
      (encodeListKeywordsByWebsiteArgs p) "/ai/list-keywords-by-website" rfl hstatus
    have hb : handlerBody rt env "list_keywords_by_website" args =
        (.error ("Erreur API WordPress: " ++
          natDecimal (env.respond "/ai/list-keywords-by-website"
            (encodeListKeywordsByWebsiteArgs p)).status ++ " " ++
          (env.respond "/ai/list-keywords-by-website"
            (encodeListKeywordsByWebsiteArgs p)).statusText),
         [("/ai/list-keywords-by-website", encodeListKeywordsByWebsiteArgs p)]) := by
      rw [handlerBody_kwList]
      exact toolStep_gateway_error hp hc
    rw [handleCallTool_of_error hb]
    refine ⟨rfl, ?_⟩
    unfold mkErrorReport
    exact strContains_appendL _ _ _ (strContains_appendR _ _ _
      (strContains_appendR _ _ _ (strContains_self_right _ _)))

/-- Witness for C5: a backend answering 502 to a valid
`list_keywords_by_website` call yields an error-flagged report containing
`502`. -/
theorem claim5_witness :
    (handleCallTool rt0 env502 "list_keywords_by_website" argsSite7).1.isError = true ∧
    strContains (handleCallTool rt0 env502 "list_keywords_by_website" argsSite7).1.text
      (natDecimal 502) :=
  claim5_http_status_error.2 rt0 env502 argsSite7 ⟨7, false⟩ rfl (by decide)

/-! ### Claim C4 -/

/-- Claim C4: for every backend response whose JSON body has `success` false
or absent, the gateway fails with an application error using the
backend-supplied message when present (the fallback `Erreur inconnue`
otherwise), and — shown on the full `list_keywords_by_website` pipeline —
the final error-flagged report text contains that message. -/
theorem claim4_backend_failure :
    (∀ (env : Backend) (toolName : String) (body : Json) (ep : String),
      endpointFor toolName = .ok ep →
      200 ≤ (env.respond ep body).status ∧ (env.respond ep body).status ≤ 299 →
      ¬ (env.respond ep body).body.success = some true →
      callReferencimeAPI env toolName body =
        (.error ("Erreur dans la réponse API: " ++
          apiFailureMsg (env.respond ep body).body.message), [(ep, body)]))
    ∧ (∀ m : String, m ≠ "" → apiFailureMsg (some m) = m)
    ∧ apiFailureMsg none = "Erreur inconnue"
    ∧
    (∀ (rt : Runtime) (env : Backend) (args : Json) (p : ListKeywordsByWebsiteArgs),
      parseListKeywordsByWebsiteArgs args = .ok p →
      200 ≤ (env.respond "/ai/list-keywords-by-website"
          (encodeListKeywordsByWebsiteArgs p)).status ∧
        (env.respond "/ai/list-keywords-by-website"
          (encodeListKeywordsByWebsiteArgs p)).status ≤ 299 →
      ¬ (env.respond "/ai/list-keywords-by-website"
          (encodeListKeywordsByWebsiteArgs p)).body.success = some true →
      (handleCallTool rt env "list_keywords_by_website" args).1.isError = true ∧
      (∀ m : String,
        (env.respond "/ai/list-keywords-by-website"
          (encodeListKeywordsByWebsiteArgs p)).body.message = some m →
        strContains (handleCallTool rt env "list_keywords_by_website" args).1.text m) ∧
      ((env.respond "/ai/list-keywords-by-website"
          (encodeListKeywordsByWebsiteArgs p)).body.message = none →
        strContains (handleCallTool rt env "list_keywords_by_website" args).1.text
          "Erreur inconnue")) := by
  refine ⟨?_, ?_, rfl, ?_⟩
  · intro env toolName body ep hep hstatus hsucc
    exact callReferencimeAPI_app_error env toolName body ep hep hstatus hsucc
  · intro m hm
    unfold apiFailureMsg
    dsimp only
    rw [if_neg hm]
  · intro rt env args p hp hstatus hsucc
    have hc := callReferencimeAPI_app_error env "list_keywords_by_website"
      (encodeListKeywordsByWebsiteArgs p) "/ai/list-keywords-by-website" rfl hstatus hsucc
    have hb : handlerBody rt env "list_keywords_by_website" args =
        (.error ("Erreur dans la réponse API: " ++
          apiFailureMsg (env.respond "/ai/list-keywords-by-website"
            (encodeListKeywordsByWebsiteArgs p)).body.message),
         [("/ai/list-keywords-by-website", encodeListKeywordsByWebsiteArgs p)]) := by
      rw [handlerBody_kwList]
      exact toolStep_gateway_error hp hc
    rw [handleCallTool_of_error hb]
    refine ⟨rfl, ?_, ?_⟩
    · intro m hm
      by_cases hme : m = ""
      · subst hme
        exact strContains_empty _
      · have : apiFailureMsg (env.respond "/ai/list-keywords-by-website"
            (encodeListKeywordsByWebsiteArgs p)).body.message = m := by
          rw [hm]
          unfold apiFailureMsg
          dsimp only
          rw [if_neg hme]
        unfold mkErrorReport
        rw [this]
        exact strContains_appendL _ _ _ (strContains_self_right _ _)
    · intro hm
      have : apiFailureMsg (env.respond "/ai/list-keywords-by-website"
          (encodeListKeywordsByWebsiteArgs p)).body.message = "Erreur inconnue" := by
        rw [hm]
        rfl
      unfold mkErrorReport
      rw [this]
      exact strContains_appendL _ _ _ (strContains_self_right _ _)

/-- Witness for C4: a backend replying `success: false` with message
`quota dépassé` to a valid `list_keywords_by_website` call yields an
error-flagged report whose text contains that message. -/
theorem claim4_witness :
    (handleCallTool rt0 envAppFail "list_keywords_by_website" argsSite7).1.isError = true ∧
    strContains (handleCallTool rt0 envAppFail "list_keywords_by_website" argsSite7).1.text
      "quota dépassé" := by
  have h := claim4_backend_failure.2.2.2 rt0 envAppFail argsSite7 ⟨7, false⟩ rfl
    (by decide) (by decide)
  exact ⟨h.1, h.2.1 "quota dépassé" rfl⟩

/-! ### Claim C6 -/

/-- On a validation failure the handler yields an error-flagged report whose
text contains the tool name, with no HTTP request issued. -/
theorem toolStep_validation_report {α : Type} {rt : Runtime} {env : Backend}
    {name : String} {args : Json} {e : String}
    {parse : Json → Except String α} {encode : α → Json}
    {format : BackendData → Except String Report}
    (hbranch : handlerBody rt env name args = toolStep env name parse encode format args)
    (h : parse args = .error e) :
    (handleCallTool rt env name args).1.isError = true ∧
    strContains (handleCallTool rt env name args).1.text name ∧
    (handleCallTool rt env name args).2 = [] := by
  have hb : handlerBody rt env name args =
      (.error ("Arguments invalides pour " ++ name ++ ": " ++ e), []) := by
    rw [hbranch]
    exact toolStep_parse_error h
  rw [handleCallTool_of_error hb]
  refine ⟨rfl, ?_, rfl⟩
  unfold mkErrorReport
  exact strContains_appendL _ _ _ (strContains_appendR _ _ _
    (strContains_appendR _ _ _ (strContains_self_right _ _)))

/-- Claim C6: for each declared tool, an argument set that fails validation
yields an error-flagged report whose text names the tool, and no HTTP
request reaches the backend; moreover an argument object missing the
required `website_id` field does fail validation (shown for the two cited
schemas). -/
theorem claim6_validation_failure :
    (∀ (rt : Runtime) (env : Backend) (args : Json) (e : String),
      parseListWebsitesByUserArgs args = .error e →
      (handleCallTool rt env "list_websites_by_user" args).1.isError = true ∧
      strContains (handleCallTool rt env "list_websites_by_user" args).1.text
        "list_websites_by_user" ∧
      (handleCallTool rt env "list_websites_by_user" args).2 = [])
    ∧
    (∀ (rt : Runtime) (env : Backend) (args : Json) (e : String),
      parseListCategoriesByWebsiteArgs args = .error e →
      (handleCallTool rt env "list_categories_by_website" args).1.isError = true ∧
      strContains (handleCallTool rt env "list_categories_by_website" args).1.text
        "list_categories_by_website" ∧
      (handleCallTool rt env "list_categories_by_website" args).2 = [])
    ∧
    (∀ (rt : Runtime) (env : Backend) (args : Json) (e : String),
      parseListKeywordsByWebsiteArgs args = .error e →
      (handleCallTool rt env "list_keywords_by_website" args).1.isError = true ∧
      strContains (handleCallTool rt env "list_keywords_by_website" args).1.text
        "list_keywords_by_website" ∧
      (handleCallTool rt env "list_keywords_by_website" args).2 = [])
    ∧
    (∀ (rt : Runtime) (env : Backend) (args : Json) (e : String),
      parseListKeywordsByCategoriesByWebsiteArgs args = .error e →
      (handleCallTool rt env "list_keywords_by_categories_by_website" args).1.isError = true ∧
      strContains
        (handleCallTool rt env "list_keywords_by_categories_by_website" args).1.text
        "list_keywords_by_categories_by_website" ∧
      (handleCallTool rt env "list_keywords_by_categories_by_website" args).2 = [])
    ∧
    (∀ (rt : Runtime) (env : Backend) (args : Json) (e : String),
      parseWebsiteSummaryArgs args = .error e →
      (handleCallTool rt env "get_website_performance_summary" args).1.isError = true ∧
      strContains (handleCallTool rt env "get_website_performance_summary" args).1.text
        "get_website_performance_summary" ∧
      (handleCallTool rt env "get_website_performance_summary" args).2 = [])
    ∧
    (∀ fields : List (String × Json), jLookup "website_id" fields = none →
      parseListKeywordsByWebsiteArgs (.obj fields) = .error "website_id: requis")
    ∧
    (∀ fields : List (String × Json), jLookup "website_id" fields = none →
      parseListKeywordsByCategoriesByWebsiteArgs (.obj fields) =
        .error "website_id: requis") := by
  refine ⟨?_, ?_, ?_, ?_, ?_, ?_, ?_⟩
  · intro rt env args e h
    exact toolStep_validation_report (handlerBody_websites rt env args) h
  · intro rt env args e h
    exact toolStep_validation_report (handlerBody_categories rt env args) h
  · intro rt env args e h
    exact toolStep_validation_report (handlerBody_kwList rt env args) h
  · intro rt env args e h
    exact toolStep_validation_report (handlerBody_kwCats rt env args) h
  · intro rt env args e h
    exact toolStep_validation_report (handlerBody_summary rt env args) h
  · intro fields h
    unfold parseListKeywordsByWebsiteArgs
    dsimp only
    rw [h]
  · intro fields h
    unfold parseListKeywordsByCategoriesByWebsiteArgs
    dsimp only
    rw [h]

/-- Witness for C6: calling `list_keywords_by_website` with an empty
argument object yields an error-flagged report naming the tool, and the
backend receives no request. -/
theorem claim6_witness :
    (handleCallTool rt0 env502 "list_keywords_by_website" (Json.obj [])).1.isError = true ∧
    strContains (handleCallTool rt0 env502 "list_keywords_by_website" (Json.obj [])).1.text
      "list_keywords_by_website" ∧
    (handleCallTool rt0 env502 "list_keywords_by_website" (Json.obj [])).2 = [] :=
  claim6_validation_failure.2.2.1 rt0 env502 (Json.obj []) "website_id: requis" rfl

/-! ### Claim C7 -/

theorem parseOptStr_congr {key : String} {f1 f2 : List (String × Json)}
    (h : jLookup key f1 = jLookup key f2) :
    parseOptStr key f1 = parseOptStr key f2 := by
  unfold parseOptStr
  rw [h]

/-- Claim C7: validation depends only on the declared fields (unknown extra
fields are silently dropped and never make a parse fail), the encoded
request body carries only the declared fields, declared defaults apply to
absent optional fields, and no type coercion happens (a string where a
number is expected fails, as does a number where a boolean is expected). -/
theorem claim7_validation_policy :
    (∀ f1 f2 : List (String × Json),
      jLookup "website_id" f1 = jLookup "website_id" f2 →
      jLookup "include_metrics" f1 = jLookup "include_metrics" f2 →
      parseListKeywordsByWebsiteArgs (.obj f1) = parseListKeywordsByWebsiteArgs (.obj f2))
    ∧
    (∀ f1 f2 : List (String × Json),
      jLookup "website_id" f1 = jLookup "website_id" f2 →
      parseListCategoriesByWebsiteArgs (.obj f1) = parseListCategoriesByWebsiteArgs (.obj f2))
    ∧
    (∀ f1 f2 : List (String × Json),
      parseListWebsitesByUserArgs (.obj f1) = parseListWebsitesByUserArgs (.obj f2))
    ∧
    (∀ f1 f2 : List (String × Json),
      jLookup "website_id" f1 = jLookup "website_id" f2 →
      jLookup "include_performance" f1 = jLookup "include_performance" f2 →
      jLookup "days" f1 = jLookup "days" f2 →
      parseListKeywordsByCategoriesByWebsiteArgs (.obj f1) =
        parseListKeywordsByCategoriesByWebsiteArgs (.obj f2))
    ∧
    (∀ f1 f2 : List (String × Json),
      jLookup "website_id" f1 = jLookup "website_id" f2 →
      jLookup "period" f1 = jLookup "period" f2 →
      jLookup "start_date" f1 = jLookup "start_date" f2 →
      jLookup "end_date" f1 = jLookup "end_date" f2 →
      jLookup "compare_start_date" f1 = jLookup "compare_start_date" f2 →
      jLookup "compare_end_date" f1 = jLookup "compare_end_date" f2 →
      parseWebsiteSummaryArgs (.obj f1) = parseWebsiteSummaryArgs (.obj f2))
    ∧
    (∀ p : ListKeywordsByWebsiteArgs,
      jsonKeys (encodeListKeywordsByWebsiteArgs p) = ["website_id", "include_metrics"])
    ∧
    (∀ (fields : List (String × Json)) (q : ℚ),
      jLookup "website_id" fields = some (.num q) →
      jLookup "include_metrics" fields = none →
      parseListKeywordsByWebsiteArgs (.obj fields) = .ok ⟨q, false⟩)
    ∧
    (∀ (fields : List (String × Json)) (q : ℚ),
      jLookup "website_id" fields = some (.num q) →
      jLookup "include_performance" fields = none →
      jLookup "days" fields = none →
      parseListKeywordsByCategoriesByWebsiteArgs (.obj fields) = .ok ⟨q, true, 30⟩)
    ∧
    (∀ (fields : List (String × Json)) (s : String),
      jLookup "website_id" fields = some (.str s) →
      parseListKeywordsByWebsiteArgs (.obj fields) = .error "website_id: nombre attendu")
    ∧
    (∀ (fields : List (String × Json)) (q x : ℚ),
      jLookup "website_id" fields = some (.num q) →
      jLookup "include_metrics" fields = some (.num x) →
      parseListKeywordsByWebsiteArgs (.obj fields) =
        .error "include_metrics: booléen attendu") := by
  refine ⟨?_, ?_, ?_, ?_, ?_, ?_, ?_, ?_, ?_, ?_⟩
  · intro f1 f2 h1 h2
    unfold parseListKeywordsByWebsiteArgs
    dsimp only
    rw [h1, h2]
  · intro f1 f2 h1
    unfold parseListCategoriesByWebsiteArgs
    dsimp only
    rw [h1]
  · intro f1 f2
    rfl
  · intro f1 f2 h1 h2 h3
    unfold parseListKeywordsByCategoriesByWebsiteArgs
    dsimp only
    rw [h1, h2, h3]
  · intro f1 f2 h1 h2 h3 h4 h5 h6
    unfold parseWebsiteSummaryArgs
    dsimp only
    rw [h1, h2, parseOptStr_congr h3, parseOptStr_congr h4, parseOptStr_congr h5,
      parseOptStr_congr h6]
  · intro p
    rfl
  · intro fields q h1 h2
    unfold parseListKeywordsByWebsiteArgs
    dsimp only
    rw [h1, h2]
  · intro fields q h1 h2 h3
    unfold parseListKeywordsByCategoriesByWebsiteArgs
    dsimp only
    rw [h1, h2, h3]
  · intro fields s h1
    unfold parseListKeywordsByWebsiteArgs
    dsimp only
    rw [h1]
  · intro fields q x h1 h2
    unfold parseListKeywordsByWebsiteArgs
    dsimp only
    rw [h1, h2]

/-- Witness for C7: an unknown extra field neither fails nor changes the
parse of `list_keywords_by_website` arguments; the default applies to the
absent `include_metrics`; a string `website_id` fails. -/
theorem claim7_witness :
    parseListKeywordsByWebsiteArgs
        (.obj [("website_id", .num 7), ("zzz_extra", .str "ignored")]) =
      parseListKeywordsByWebsiteArgs (.obj [("website_id", .num 7)]) ∧
    parseListKeywordsByWebsiteArgs (.obj [("website_id", .num 7)]) =
      .ok ⟨7, false⟩ ∧
    parseListKeywordsByWebsiteArgs (.obj [("website_id", .str "7")]) =
      .error "website_id: nombre attendu" := by
  refine ⟨?_, ?_, ?_⟩
  · exact claim7_validation_policy.1 _ _ rfl rfl
  · exact claim7_validation_policy.2.2.2.2.2.2.1 [("website_id", .num 7)] 7 rfl rfl
  · exact claim7_validation_policy.2.2.2.2.2.2.2.2.1 [("website_id", .str "7")] "7" rfl

/-! ### Claim C2 -/

/-- Claim C2: in `list_keywords_by_website` (cap 20) a keyword list of
length `N > 20` renders exactly 20 entries plus one truncation note stating
`N - 20` remaining, and a list with `N ≤ 20` renders all `N` entries and no
note; likewise for the by-categories formatter (cap 10), whose note is
driven by the backend `keywords_count` field, here assumed consistent with
the list length. -/
theorem claim2_display_caps :
    (∀ (rt : Runtime) (im : Bool) (kws : List SimpleKeyword),
      (kws.length > 20 →
        (groupKeywordLines rt im kws).length = 20 ∧
        groupTruncated kws =
          "\n   ... et " ++ natDecimal (kws.length - 20) ++ " autres mots-clés") ∧
      (kws.length ≤ 20 →
        (groupKeywordLines rt im kws).length = kws.length ∧ groupTruncated kws = ""))
    ∧
    (∀ (rt : Runtime) (ip : Bool) (c : PerfCategory),
      c.keywords_count = (c.keywords.length : ℤ) →
      (c.keywords.length > 10 →
        (catKeywordLines rt ip c).length = 10 ∧
        catTruncated c =
          "\n   ... et " ++ intStr (c.keywords_count - 10) ++ " autres") ∧
      (c.keywords.length ≤ 10 →
        (catKeywordLines rt ip c).length = c.keywords.length ∧ catTruncated c = "")) := by
  constructor
  · intro rt im kws
    constructor
    · intro h
      refine ⟨?_, ?_⟩
      · unfold groupKeywordLines
        simp [List.length_take]
        omega
      · unfold groupTruncated
        rw [if_pos h]
    · intro h
      refine ⟨?_, ?_⟩
      · unfold groupKeywordLines
        simp [List.length_take]
        omega
      · unfold groupTruncated
        rw [if_neg (by omega)]
  · intro rt ip c hcount
    constructor
    · intro h
      refine ⟨?_, ?_⟩
      · unfold catKeywordLines
        simp [List.length_take]
        omega
      · unfold catTruncated
        rw [if_pos (by rw [hcount]; exact_mod_cast by omega)]
    · intro h
      refine ⟨?_, ?_⟩
      · unfold catKeywordLines
        simp [List.length_take]
        omega
      · unfold catTruncated
        rw [if_neg (by rw [hcount]; omega)]

/-- A keyword list of length 21 (witness input). -/
def kws21 : List SimpleKeyword := List.replicate 21 ⟨"mot", none, 0⟩

/-- A category of 11 keywords with a consistent count (witness input). -/
def cat11 : PerfCategory := ⟨some "thème", 11, List.replicate 11 ⟨"mot", none, 0⟩⟩

/-- Witness for C2: 21 keywords render 20 entries plus a note stating 1
more; 11 keywords in a category render 10 entries plus a note stating 1
more. -/
theorem claim2_witness :
    ((groupKeywordLines rt0 false kws21).length = 20 ∧
      groupTruncated kws21 =
        "\n   ... et " ++ natDecimal (kws21.length - 20) ++ " autres mots-clés") ∧
    ((catKeywordLines rt0 true cat11).length = 10 ∧
      catTruncated cat11 =
        "\n   ... et " ++ intStr (cat11.keywords_count - 10) ++ " autres") :=
  ⟨(claim2_display_caps.1 rt0 false kws21).1 (by decide),
   (claim2_display_caps.2 rt0 true cat11 (by decide)).1 (by decide)⟩

/-! ### Claim C3 -/

/-- The flat list of all keywords across the categories, in backend order. -/
def allKeywords (cats : List PerfCategory) : List CatKeyword :=
  cats.foldr (fun c acc => c.keywords ++ acc) []

theorem filter_allKeywords (cats : List PerfCategory) :
    (allKeywords cats).filter hasPos =
      cats.foldr (fun c acc => c.keywords.filter hasPos ++ acc) [] := by
  induction cats with
  | nil => rfl
  | cons c rest ih =>
    simp only [allKeywords, List.foldr_cons, List.filter_append] at *
    rw [ih]

theorem map_filter_allKeywords (cats : List PerfCategory) :
    ((allKeywords cats).filter hasPos).map posVal =
      cats.foldr (fun c acc => (c.keywords.filter hasPos).map posVal ++ acc) [] := by
  induction cats with
  | nil => rfl
  | cons c rest ih =>
    simp only [allKeywords, List.foldr_cons, List.filter_append, List.map_append] at *
    rw [ih]

theorem hasPos_posVal {k : CatKeyword} (h : hasPos k = true) : 0 < posVal k := by
  unfold hasPos at h
  unfold posVal
  revert h
  cases k.performance_metrics with
  | none => intro h; exact Bool.noConfusion h
  | some pm =>
    show (match pm.position with
          | some p => decide (0 < p)
          | none => false) = true → 0 < pm.position.getD 0
    cases pm.position with
    | none => intro h; exact Bool.noConfusion h
    | some p => intro h; exact of_decide_eq_true h

theorem totalWithPosition_eq (cats : List PerfCategory) :
    totalWithPosition cats = ((allKeywords cats).filter hasPos).length := by
  unfold totalWithPosition
  rw [filter_allKeywords]

/-- Claim C3: the locally computed average position is exactly the
arithmetic mean of the position values of the keywords that carry one
(`performance_metrics.position > 0`); when no keyword carries one the
average is `null` and the summary line is omitted; when it exists it is
strictly positive — in particular never `0` and never rendered as `0`. -/
theorem claim3_average_position :
    ∀ cats : List PerfCategory,
      (avgPosition cats =
        if ((allKeywords cats).filter hasPos).length = 0 then none
        else some ((((allKeywords cats).filter hasPos).map posVal).sum /
          (((allKeywords cats).filter hasPos).length : ℚ)))
      ∧ (totalWithPosition cats = 0 → avgPositionLine cats = "")
      ∧ (∀ a : ℚ, avgPosition cats = some a →
          0 < a ∧ avgPositionLine cats = "• Position moyenne : #" ++ toFixed1 a ++ "\n") := by
  intro cats
  have hcode : avgPosition cats =
      if ((allKeywords cats).filter hasPos).length = 0 then none
      else some ((((allKeywords cats).filter hasPos).map posVal).sum /
        (((allKeywords cats).filter hasPos).length : ℚ)) := by
    unfold avgPosition
    rw [totalWithPosition_eq, ← map_filter_allKeywords, ← List.sum_eq_foldl]
    by_cases h : ((allKeywords cats).filter hasPos).length = 0
    · rw [if_neg (by omega), if_pos h]
    · rw [if_pos (by omega), if_neg h]
  have hpos : ∀ a : ℚ, avgPosition cats = some a → 0 < a := by
    intro a ha
    rw [hcode] at ha
    by_cases h : ((allKeywords cats).filter hasPos).length = 0
    · rw [if_pos h] at ha
      cases ha
    · rw [if_neg h] at ha
      have hne : (allKeywords cats).filter hasPos ≠ [] := by
        intro hnil
        rw [hnil] at h
        exact h rfl
      have hsum : 0 < (((allKeywords cats).filter hasPos).map posVal).sum := by
        apply List.sum_pos
        · intro x hx
          obtain ⟨k, hk, rfl⟩ := List.mem_map.mp hx
          exact hasPos_posVal (List.of_mem_filter hk)
        · intro hmapnil
          exact hne (List.map_eq_nil_iff.mp hmapnil)
      have hlen : (0 : ℚ) < (((allKeywords cats).filter hasPos).length : ℚ) := by
        have : 0 < ((allKeywords cats).filter hasPos).length := Nat.pos_of_ne_zero h
        exact_mod_cast this
      have := div_pos hsum hlen
      injection ha with ha
      rw [← ha]
      exact this
  refine ⟨hcode, ?_, ?_⟩
  · intro h
    unfold avgPositionLine
    rw [hcode, if_pos (by rw [← totalWithPosition_eq]; exact h)]
  · intro a ha
    refine ⟨hpos a ha, ?_⟩
    unfold avgPositionLine
    rw [ha]
    dsimp only
    rw [if_neg (hpos a ha).ne']

/-- A category whose three keywords carry positions 2, 4 and (no data)
(witness input): the average must be 3. -/
def cat3pos : PerfCategory :=
  ⟨some "t", 3,
   [⟨"a", some ⟨true, some 2, 1, 10, 0⟩, 0⟩,
    ⟨"b", some ⟨true, some 4, 1, 10, 0⟩, 0⟩,
    ⟨"c", some ⟨false, none, 0, 0, 0⟩, 0⟩]⟩

/-- Witness for C3: with positions 2 and 4 among three keywords the average
is 3 and the summary line shows it; with no positions the line is omitted. -/
theorem claim3_witness :
    avgPosition [cat3pos] = some 3 ∧
    (0 : ℚ) < 3 ∧
    avgPositionLine [cat3pos] = "• Position moyenne : #" ++ toFixed1 3 ++ "\n" ∧
    avgPositionLine [] = "" := by
  have h1 : avgPosition [cat3pos] = some 3 := by
    unfold avgPosition totalWithPosition cat3pos
    norm_num [hasPos, posVal, List.filter]
  have h2 := ((claim3_average_position [cat3pos]).2.2 3 h1)
  exact ⟨h1, h2.1, h2.2, (claim3_average_position []).2.1 (by decide)⟩

/-! ### Grouping lemmas (claims C8, C9) -/

/-- First-occurrence deduplication, the insertion order of the keys of a
JavaScript object built by repeated insertion. -/
def firstOccurrence (l : List String) : List String :=
  l.foldl (fun acc c => if c ∈ acc then acc else acc ++ [c]) []

theorem map_fst_objPush (o : List (String × List SimpleKeyword)) (c : String)
    (k : SimpleKeyword) :
    (objPush o c k).map Prod.fst =
      if c ∈ o.map Prod.fst then o.map Prod.fst else o.map Prod.fst ++ [c] := by
  induction o with
  | nil => simp [objPush]
  | cons p rest ih =>
    obtain ⟨c', ks⟩ := p
    by_cases h : c' = c
    · subst h
      simp [objPush]
    · by_cases hm : c ∈ rest.map Prod.fst
      · simp [objPush, h, ih, hm, Ne.symm h]
      · simp [objPush, h, ih, hm, Ne.symm h]

theorem keys_foldl_objPush (kws : List SimpleKeyword) :
    ∀ o : List (String × List SimpleKeyword),
      ((kws.foldl (fun o k => objPush o (catName k) k) o).map Prod.fst) =
        (kws.map catName).foldl (fun acc c => if c ∈ acc then acc else acc ++ [c])
          (o.map Prod.fst) := by
  induction kws with
  | nil => intro o; rfl
  | cons k rest ih =>
    intro o
    simp only [List.foldl_cons, List.map_cons]
    rw [ih, map_fst_objPush]

/-- The keys of the ideal dictionary are the category labels in
first-occurrence order. -/
theorem keys_groupIdeal (kws : List SimpleKeyword) :
    (groupIdeal kws).map Prod.fst = firstOccurrence (kws.map catName) :=
  keys_foldl_objPush kws []

theorem mem_firstOcc_fold (l : List String) :
    ∀ (acc : List String) (c : String),
      c ∈ l.foldl (fun acc c => if c ∈ acc then acc else acc ++ [c]) acc ↔
        c ∈ acc ∨ c ∈ l := by
  induction l with
  | nil => simp
  | cons x rest ih =>
    intro acc c
    simp only [List.foldl_cons]
    rw [ih]
    by_cases hx : x ∈ acc
    · rw [if_pos hx]
      simp only [List.mem_cons]
      constructor
      · rintro (h | h)
        · exact Or.inl h
        · exact Or.inr (Or.inr h)
      · rintro (h | h | h)
        · exact Or.inl h
        · exact Or.inl (h ▸ hx)
        · exact Or.inr h
    · rw [if_neg hx]
      simp only [List.mem_append, List.mem_singleton, List.mem_cons]
      tauto

theorem mem_firstOccurrence {l : List String} {c : String} :
    c ∈ firstOccurrence l ↔ c ∈ l := by
  unfold firstOccurrence
  rw [mem_firstOcc_fold]
  simp

theorem groupLookup_objPush (o : List (String × List SimpleKeyword)) (c c' : String)
    (k : SimpleKeyword) :
    groupLookup c (objPush o c' k) =
      if c' = c then groupLookup c o ++ [k] else groupLookup c o := by
  induction o with
  | nil =>
    by_cases h : c' = c <;> simp [objPush, groupLookup, h]
  | cons p rest ih =>
    obtain ⟨c'', ks⟩ := p
    by_cases h2 : c'' = c'
    · subst h2
      by_cases h : c'' = c <;> simp [objPush, groupLookup, h, ih]
    · by_cases h : c'' = c
      · subst h
        have : c' ≠ c'' := fun he => h2 he.symm
        simp [objPush, groupLookup, h2, this, ih]
      · simp [objPush, groupLookup, h2, h, ih]

theorem groupLookup_foldl_objPush (kws : List SimpleKeyword) :
    ∀ (o : List (String × List SimpleKeyword)) (c : String),
      groupLookup c (kws.foldl (fun o k => objPush o (catName k) k) o) =
        groupLookup c o ++ (kws.filter fun k => decide (catName k = c)) := by
  induction kws with
  | nil => intro o c; simp
  | cons k rest ih =>
    intro o c
    simp only [List.foldl_cons]
    rw [ih, groupLookup_objPush]
    by_cases h : catName k = c
    · rw [if_pos h]
      simp [h, List.append_assoc]
    · rw [if_neg h]
      simp [h]

/-- The group stored under label `c` is exactly the sub-list of backend
keywords whose (defaulted) category is `c`, in the received order. -/
theorem groupLookup_groupIdeal (kws : List SimpleKeyword) (c : String) :
    groupLookup c (groupIdeal kws) = kws.filter fun k => decide (catName k = c) :=
  groupLookup_foldl_objPush kws [] c

/-- When no category label names an `Object.prototype` member, every
`forEach` step takes a non-throwing branch and the plain object behaves as
the ideal dictionary. -/
theorem byCategoryAux_ok :
    ∀ kws : List SimpleKeyword,
      (∀ k ∈ kws, protoTruthy (catName k) = false) →
      ∀ o : List (String × List SimpleKeyword),
        byCategoryAux o kws = .ok (kws.foldl (fun o k => objPush o (catName k) k) o) := by
  intro kws
  induction kws with
  | nil => intro h o; rfl
  | cons k0 rest ih =>
    intro h o
    have hstep : byCategoryStep o k0 = .ok (objPush o (catName k0) k0) := by
      unfold byCategoryStep
      by_cases hmem : catName k0 ∈ o.map Prod.fst
      · rw [if_pos hmem]
      · rw [if_neg hmem,
          if_neg (by rw [h k0 (List.mem_cons_self _ _)]; exact Bool.noConfusion)]
    unfold byCategoryAux
    rw [hstep]
    dsimp only
    rw [List.foldl_cons]
    exact ih (fun k hk => h k (List.mem_cons_of_mem _ hk)) _

theorem byCategory_ok {kws : List SimpleKeyword}
    (h : ∀ k ∈ kws, protoTruthy (catName k) = false) :
    byCategory kws = .ok (groupIdeal kws) :=
  byCategoryAux_ok kws h []

/-- A category label naming an `Object.prototype` member makes the grouping
throw: the presence check finds the inherited member truthy, skips the
initialization, and `push` fails on a non-array. -/
theorem byCategoryAux_error :
    ∀ kws : List SimpleKeyword,
      (∃ k ∈ kws, protoTruthy (catName k) = true) →
      ∀ o : List (String × List SimpleKeyword),
        (∀ c ∈ o.map Prod.fst, protoTruthy c = false) →
        ∃ e, byCategoryAux o kws = .error e := by
  intro kws
  induction kws with
  | nil =>
    intro h o ho
    obtain ⟨k, hk, _⟩ := h
    simp at hk
  | cons k0 rest ih =>
    intro h o ho
    by_cases hp : protoTruthy (catName k0) = true
    · have hnotmem : catName k0 ∉ o.map Prod.fst := by
        intro hmem
        rw [ho _ hmem] at hp
        exact Bool.noConfusion hp
      refine ⟨"TypeError: byCategory[catName].push is not a function", ?_⟩
      unfold byCategoryAux byCategoryStep
      rw [if_neg hnotmem, if_pos hp]
    · have hp' : protoTruthy (catName k0) = false := by
        revert hp
        cases protoTruthy (catName k0) <;> simp
      have hstep : byCategoryStep o k0 = .ok (objPush o (catName k0) k0) := by
        unfold byCategoryStep
        by_cases hmem : catName k0 ∈ o.map Prod.fst
        · rw [if_pos hmem]
        · rw [if_neg hmem, if_neg (by rw [hp']; exact Bool.noConfusion)]
      unfold byCategoryAux
      rw [hstep]
      dsimp only
      apply ih
      · obtain ⟨k, hk, hkp⟩ := h
        rcases List.mem_cons.mp hk with heq | hk
        · exact absurd (heq ▸ hkp) hp
        · exact ⟨k, hk, hkp⟩
      · intro c hc
        rw [map_fst_objPush] at hc
        by_cases hmem : catName k0 ∈ o.map Prod.fst
        · rw [if_pos hmem] at hc
          exact ho c hc
        · rw [if_neg hmem] at hc
          rcases List.mem_append.mp hc with hc | hc
          · exact ho c hc
          · simp at hc
            rw [hc]
            exact hp'

theorem byCategory_error {kws : List SimpleKeyword}
    (h : ∃ k ∈ kws, protoTruthy (catName k) = true) :
    ∃ e, byCategory kws = .error e :=
  byCategoryAux_error kws h [] (by simp)

theorem mem_insertByKey {α : Type} (p q : String × α) (l : List (String × α)) :
    q ∈ insertByKey p l ↔ q = p ∨ q ∈ l := by
  induction l with
  | nil => simp [insertByKey]
  | cons x rest ih =>
    unfold insertByKey
    by_cases h : strToNat p.1 ≤ strToNat x.1
    · simp [h]
    · simp [h, ih]
      tauto

theorem mem_sortByKey {α : Type} (l : List (String × α)) (q : String × α) :
    q ∈ sortByKey l ↔ q ∈ l := by
  induction l with
  | nil => simp [sortByKey]
  | cons x rest ih =>
    show q ∈ insertByKey x (sortByKey rest) ↔ _
    rw [mem_insertByKey]
    simp [ih]

/-- `Object.entries` enumerates exactly the stored entries. -/
theorem mem_jsEntries {α : Type} (o : List (String × α)) (q : String × α) :
    q ∈ jsEntries o ↔ q ∈ o := by
  unfold jsEntries
  rw [List.mem_append, mem_sortByKey]
  by_cases h : isArrayIndexKey q.1 <;> simp [List.mem_filter, h]

/-- When no key is an array-index key, `Object.entries` returns the entries
in insertion order. -/
theorem jsEntries_of_no_index {α : Type} (o : List (String × α))
    (h : ∀ p ∈ o, isArrayIndexKey p.1 = false) : jsEntries o = o := by
  unfold jsEntries
  rw [List.filter_eq_nil_iff.mpr (by intro p hp; simp [h p hp]),
    List.filter_eq_self.mpr (by intro p hp; simp [h p hp])]
  rfl

/-! ### Claim C9 (corrected) -/

/-- A keyword whose category label names an `Object.prototype` member
(counterexample input for C9). -/
def kwsProtoLabel : List SimpleKeyword := [⟨"mot", some "toString", 0⟩]

/-- Counterexample to C9 as stated: for a keyword labelled `toString` the
plain-object presence check finds the inherited `Object.prototype.toString`
truthy, skips the initialization, and `push` throws — the formatter returns
the thrown `TypeError`, so this backend keyword is rendered under no
displayed category group at all. -/
theorem claim9_counterexample :
    (⟨"mot", some "toString", 0⟩ : SimpleKeyword) ∈ kwsProtoLabel ∧
    catName ⟨"mot", some "toString", 0⟩ = "toString" ∧
    byCategory kwsProtoLabel =
      .error "TypeError: byCategory[catName].push is not a function" ∧
    formatKwList rt0 (.kwList ⟨5, 1, false, kwsProtoLabel⟩) =
      .error "TypeError: byCategory[catName].push is not a function" := by
  refine ⟨by decide, rfl, rfl, rfl⟩

/-- Claim C9 (amended): provided no category label of the list names an
`Object.prototype` member, the grouping succeeds as an own-key dictionary
in which every keyword with a falsy `category_name` is grouped under
`Non catégorisé` (a label never colliding with the prototype), each backend
keyword belongs to exactly the displayed group of its defaulted label; a
list containing a prototype-member label instead makes the grouping throw a
`TypeError`, so nothing is rendered. -/
theorem claim9_uncategorized_grouping :
    (∀ k : SimpleKeyword, k.category_name = none ∨ k.category_name = some "" →
      catName k = "Non catégorisé")
    ∧ protoTruthy "Non catégorisé" = false
    ∧
    (∀ kws : List SimpleKeyword,
      (∀ k ∈ kws, protoTruthy (catName k) = false) →
      byCategory kws = .ok (groupIdeal kws) ∧
      (∀ (k : SimpleKeyword) (c : String),
        k ∈ groupLookup c (groupIdeal kws) ↔ (catName k = c ∧ k ∈ kws)) ∧
      (∀ k ∈ kws, catName k ∈ (jsEntries (groupIdeal kws)).map Prod.fst))
    ∧
    (∀ kws : List SimpleKeyword, (∃ k ∈ kws, protoTruthy (catName k) = true) →
      ∃ e, byCategory kws = .error e) := by
  refine ⟨?_, rfl, ?_, fun kws h => byCategory_error h⟩
  · intro k h
    unfold catName
    rcases h with h | h <;> rw [h]
    rfl
  · intro kws hproto
    refine ⟨byCategory_ok hproto, ?_, ?_⟩
    · intro k c
      rw [groupLookup_groupIdeal, List.mem_filter]
      simp only [decide_eq_true_eq]
      tauto
    · intro k hk
      have hmem : catName k ∈ (groupIdeal kws).map Prod.fst := by
        rw [keys_groupIdeal, mem_firstOccurrence]
        exact List.mem_map_of_mem catName hk
      obtain ⟨p, hp, hfst⟩ := List.mem_map.mp hmem
      exact List.mem_map.mpr ⟨p, (mem_jsEntries _ p).mpr hp, hfst⟩

/-- Witness for the amended C9: a keyword with an absent category lands in
the `Non catégorisé` group, which is displayed, and the grouping succeeds. -/
theorem claim9_witness :
    catName ⟨"mot", none, 0⟩ = "Non catégorisé" ∧
    byCategory [⟨"mot", none, 0⟩] = .ok (groupIdeal [⟨"mot", none, 0⟩]) ∧
    (⟨"mot", none, 0⟩ : SimpleKeyword) ∈
      groupLookup "Non catégorisé" (groupIdeal [⟨"mot", none, 0⟩]) ∧
    "Non catégorisé" ∈ (jsEntries (groupIdeal [⟨"mot", none, 0⟩])).map Prod.fst := by
  have h := claim9_uncategorized_grouping.2.2.1 [⟨"mot", none, 0⟩] (by decide)
  refine ⟨claim9_uncategorized_grouping.1 _ (Or.inl rfl), h.1, ?_, ?_⟩
  · exact (h.2.1 ⟨"mot", none, 0⟩ "Non catégorisé").mpr ⟨rfl, by decide⟩
  · have := h.2.2 ⟨"mot", none, 0⟩ (by decide)
    simpa using this

/-! ### Claim C8 (corrected) -/

/-- Two keywords whose category labels are the numeric strings `2` and `1`
(counterexample input for C8). -/
def kwsNumericCats : List SimpleKeyword :=
  [⟨"alpha", some "2", 0⟩, ⟨"beta", some "1", 0⟩]

/-- Counterexample to C8 as stated: the backend delivers categories in the
order `2`, `1`; the grouping itself succeeds (numeric labels do not collide
with `Object.prototype`), but `Object.entries` enumerates the
array-index-like keys in ascending numeric order, so the formatter renders
`1` before `2` — the first-occurrence order is not preserved. -/
theorem claim8_counterexample :
    kwsNumericCats.map catName = ["2", "1"] ∧
    firstOccurrence (kwsNumericCats.map catName) = ["2", "1"] ∧
    byCategory kwsNumericCats = .ok (groupIdeal kwsNumericCats) ∧
    (jsEntries (groupIdeal kwsNumericCats)).map Prod.fst = ["1", "2"] ∧
    (jsEntries (groupIdeal kwsNumericCats)).map Prod.fst ≠
      firstOccurrence (kwsNumericCats.map catName) := by
  refine ⟨by decide, by decide, rfl, by decide, by decide⟩

/-- Claim C8 (amended): provided no category label names an
`Object.prototype` member (otherwise the grouping throws a `TypeError` and
nothing is rendered), the grouping succeeds, and if additionally no label is
a canonical numeric string below `2^32 - 1` (a JavaScript array-index key),
the rendered category order of `list_keywords_by_website` is the
first-occurrence order of the backend data; each group lists exactly the
backend keywords of that category in the received order, and the
by-categories formatter renders `result.categories` in the received order,
each category showing (a prefix of) its keywords in the received order with
no re-sorting. -/
theorem claim8_order_preservation :
    (∀ kws : List SimpleKeyword,
      (∀ k ∈ kws, protoTruthy (catName k) = false) →
      byCategory kws = .ok (groupIdeal kws) ∧
      ((∀ c ∈ kws.map catName, isArrayIndexKey c = false) →
        (jsEntries (groupIdeal kws)).map Prod.fst = firstOccurrence (kws.map catName)))
    ∧
    (∀ (kws : List SimpleKeyword) (c : String),
      groupLookup c (groupIdeal kws) = kws.filter fun k => decide (catName k = c))
    ∧
    (∀ (rt : Runtime) (r : KwCatsResult) (hg : r.has_gsc_data = true),
      formatKwCats rt (.kwCats r) =
        .ok ⟨"📂 **MOTS-CLÉS PAR CATÉGORIES - SITE #" ++ intStr r.website_id ++ "**\n\n" ++
          "📅 **Période :** " ++ intStr r.period_days ++ " jours\n" ++
          "📊 **Métriques GSC :** " ++
          (if r.include_performance then "Incluses" else "Désactivées") ++ "\n\n" ++
          "📈 **Résumé :**\n" ++
          "• Total mots-clés : " ++ rt.fmtLocaleNum (r.summary.total_keywords : ℚ) ++ "\n" ++
          "• Catégories : " ++ intStr r.summary.total_categories ++ "\n" ++
          "• Non catégorisés : " ++ intStr r.summary.uncategorized_keywords ++ "\n" ++
          "• Avec position GSC : " ++ natDecimal (totalWithPosition r.categories) ++ "\n" ++
          avgPositionLine r.categories ++
          "\n" ++
          String.join (r.categories.map (renderPerfCategory rt r.include_performance)) ++
          "\n" ++
          "📅 **MAJ :** " ++ rt.fmtDateTime r.last_updated ++ "\n\n" ++
          "💡 **Astuce :** Identifiez vos thématiques SEO les plus performantes !",
        false⟩)
    ∧
    (∀ (rt : Runtime) (ip : Bool) (c : PerfCategory),
      catKeywordLines rt ip c = (c.keywords.take 10).map (renderPerfKeywordLine rt ip) ∧
      List.Sublist (c.keywords.take 10) c.keywords) := by
  refine ⟨?_, groupLookup_groupIdeal, ?_, ?_⟩
  · intro kws hproto
    refine ⟨byCategory_ok hproto, ?_⟩
    intro h
    have hkeys : ∀ p ∈ groupIdeal kws, isArrayIndexKey p.1 = false := by
      intro p hp
      apply h
      have : p.1 ∈ (groupIdeal kws).map Prod.fst := List.mem_map_of_mem Prod.fst hp
      rw [keys_groupIdeal, mem_firstOccurrence] at this
      exact this
    rw [jsEntries_of_no_index _ hkeys, keys_groupIdeal]
  · intro rt r hg
    unfold formatKwCats
    dsimp only
    rw [hg]
    rw [if_neg (by simp)]
  · intro rt ip c
    exact ⟨rfl, List.take_sublist 10 c.keywords⟩

/-- Three keywords in two non-numeric categories (witness input). -/
def kwsPlainCats : List SimpleKeyword :=
  [⟨"a", some "chaussures", 0⟩, ⟨"b", none, 0⟩, ⟨"c", some "chaussures", 0⟩]

/-- Witness for the amended C8: with plain labels the grouping succeeds,
the rendered order is the first-occurrence order and each group keeps the
received order. -/
theorem claim8_witness :
    byCategory kwsPlainCats = .ok (groupIdeal kwsPlainCats) ∧
    (jsEntries (groupIdeal kwsPlainCats)).map Prod.fst =
      firstOccurrence (kwsPlainCats.map catName) ∧
    groupLookup "chaussures" (groupIdeal kwsPlainCats) =
      kwsPlainCats.filter fun k => decide (catName k = "chaussures") :=
  ⟨(claim8_order_preservation.1 kwsPlainCats (by decide)).1,
   (claim8_order_preservation.1 kwsPlainCats (by decide)).2 (by decide),
   claim8_order_preservation.2.1 kwsPlainCats "chaussures"⟩

/-! ### Character-set lemmas (claim C10): the metrics segment without its
CTR field only ever prints digits, signs and the fixed captions, none of
which contain the letter `T` of `CTR:`. -/

def decimalDigits : List Char := ['0', '1', '2', '3', '4', '5', '6', '7', '8', '9']

theorem digitChar_mem (d : ℕ) : digitChar d ∈ decimalDigits := by
  unfold digitChar
  repeat' split
  all_goals decide

theorem natDigitsAux_mem :
    ∀ (fuel n : ℕ) (c : Char), c ∈ natDigitsAux fuel n → c ∈ decimalDigits := by
  intro fuel
  induction fuel with
  | zero => intro n c h; simp [natDigitsAux] at h
  | succ fuel ih =>
    intro n c h
    unfold natDigitsAux at h
    by_cases hn : n = 0
    · rw [if_pos hn] at h
      simp at h
    · rw [if_neg hn] at h
      rcases List.mem_append.mp h with h | h
      · exact ih _ _ h
      · simp at h
        rw [h]
        exact digitChar_mem _

theorem natDecimal_mem {n : ℕ} {c : Char} (h : c ∈ (natDecimal n).data) :
    c ∈ decimalDigits := by
  unfold natDecimal at h
  by_cases hn : n = 0
  · rw [if_pos hn] at h
    have h0 : ("0" : String).data = ['0'] := rfl
    rw [h0] at h
    simp at h
    rw [h]
    decide
  · rw [if_neg hn] at h
    exact natDigitsAux_mem _ _ _ h

theorem intStr_mem {i : ℤ} {c : Char} (h : c ∈ (intStr i).data) :
    c ∈ '-' :: decimalDigits := by
  unfold intStr at h
  by_cases hi : i < 0
  · rw [if_pos hi, String.data_append] at h
    rcases List.mem_append.mp h with h | h
    · have hm : ("-" : String).data = ['-'] := rfl
      rw [hm] at h
      simp at h
      rw [h]
      exact List.mem_cons_self _ _
    · exact List.mem_cons_of_mem _ (natDecimal_mem h)
  · rw [if_neg hi] at h
    exact List.mem_cons_of_mem _ (natDecimal_mem h)

theorem qStr_mem {q : ℚ} {c : Char} (h : c ∈ (qStr q).data) :
    c ∈ '-' :: '/' :: decimalDigits := by
  unfold qStr at h
  by_cases hq : q.den = 1
  · rw [if_pos hq] at h
    rcases List.mem_cons.mp (intStr_mem h) with h | h
    · rw [h]; exact List.mem_cons_self _ _
    · exact List.mem_cons_of_mem _ (List.mem_cons_of_mem _ h)
  · rw [if_neg hq, String.data_append, String.data_append] at h
    rcases List.mem_append.mp h with h | h
    · rcases List.mem_append.mp h with h | h
      · rcases List.mem_cons.mp (intStr_mem h) with h | h
        · rw [h]; exact List.mem_cons_self _ _
        · exact List.mem_cons_of_mem _ (List.mem_cons_of_mem _ h)
      · have hm : ("/" : String).data = ['/'] := rfl
        rw [hm] at h
        simp at h
        rw [h]
        exact List.mem_cons_of_mem _ (List.mem_cons_self _ _)
    · exact List.mem_cons_of_mem _ (List.mem_cons_of_mem _ (natDecimal_mem h))

theorem posStr_mem {perf : PerfMetrics} {c : Char} (h : c ∈ (posStr perf).data) :
    c ∈ 'N' :: '/' :: 'A' :: '-' :: decimalDigits := by
  have hna : c ∈ ("N/A" : String).data → c ∈ 'N' :: '/' :: 'A' :: '-' :: decimalDigits := by
    intro hh
    have hd : ("N/A" : String).data = ['N', '/', 'A'] := rfl
    rw [hd] at hh
    simp only [List.mem_cons, List.not_mem_nil, or_false] at hh
    rcases hh with hh | hh | hh <;> rw [hh] <;> decide
  unfold posStr at h
  revert h
  cases perf.position with
  | none => exact hna
  | some p =>
    show c ∈ (if p = 0 then "N/A" else qStr p).data → _
    by_cases hp : p = 0
    · rw [if_pos hp]
      exact hna
    · rw [if_neg hp]
      intro h
      rcases List.mem_cons.mp (qStr_mem h) with h | h
      · rw [h]; decide
      rcases List.mem_cons.mp h with h | h
      · rw [h]; decide
      · exact List.mem_cons_of_mem _ (List.mem_cons_of_mem _
          (List.mem_cons_of_mem _ (List.mem_cons_of_mem _ h)))

theorem charT_not_in_perfSegment {perf : PerfMetrics} (hd : perf.has_data = true)
    (hc : ¬ perf.ctr > 0) : 'T' ∉ (perfSegment perf).data := by
  unfold perfSegment
  rw [hd, if_pos rfl]
  unfold ctrSegment
  rw [if_neg hc]
  intro h
  have hI : ∀ i : ℤ, 'T' ∉ (intStr i).data := by
    intro i hmem
    have := intStr_mem hmem
    revert this
    decide
  have hP : 'T' ∉ (posStr perf).data := by
    intro hmem
    have := posStr_mem hmem
    revert this
    decide
  simp [String.data_append] at h
  rcases h with h | h | h
  · exact hP h
  · exact hI _ h
  · exact hI _ h

/-! ### Claim C10 -/

theorem ctrSegment_contains (perf : PerfMetrics) (h : perf.ctr > 0) :
    strContains (ctrSegment perf) "CTR:" := by
  unfold ctrSegment
  rw [if_pos h]
  refine ⟨" | ".data, " ".data ++ (toFixed1 (perf.ctr * 100)).data ++ "%".data, ?_⟩
  simp only [String.data_append, List.append_assoc]
  rfl

/-- Claim C10: for a keyword whose metrics have `has_data`, the CTR field
(`ctr * 100`, one decimal) appears in the rendered metrics segment exactly
when `ctr > 0`; with `ctr = 0` the segment still shows clicks and
impressions but no `CTR` field.  The keyword line is the keyword caption
followed by this segment (and the volume suffix); the legacy server's
segment behaves identically. -/
theorem claim10_ctr_display :
    (∀ perf : PerfMetrics, perf.has_data = true →
      (strContains (perfSegment perf) "CTR:" ↔ perf.ctr > 0) ∧
      (perf.ctr > 0 →
        ctrSegment perf = " | CTR: " ++ toFixed1 (perf.ctr * 100) ++ "%") ∧
      (perf.ctr = 0 →
        perfSegment perf =
          " | #" ++ posStr perf ++ " | " ++ intStr perf.clicks ++ " clics | " ++
            intStr perf.impressions ++ " impr" ∧
        strContains (perfSegment perf) (intStr perf.clicks ++ " clics") ∧
        strContains (perfSegment perf) (intStr perf.impressions ++ " impr") ∧
        ¬ strContains (perfSegment perf) "CTR:"))
    ∧
    (∀ perf : PerfMetrics, perf.has_data = true →
      (strContains (perfSegmentLegacy perf) "CTR:" ↔ perf.ctr > 0))
    ∧
    (∀ (rt : Runtime) (k : CatKeyword) (perf : PerfMetrics),
      k.performance_metrics = some perf →
      renderPerfKeywordLine rt true k =
        "   • **" ++ k.keyword ++ "**" ++ perfSegment perf ++ volSegment rt k) := by
  have hseg : ∀ perf : PerfMetrics, perf.has_data = true →
      perfSegment perf =
        " | #" ++ posStr perf ++ " | " ++ intStr perf.clicks ++ " clics | " ++
          intStr perf.impressions ++ " impr" ++ ctrSegment perf := by
    intro perf hd
    unfold perfSegment
    rw [hd, if_pos rfl]
  have hnot : ∀ perf : PerfMetrics, perf.has_data = true → ¬ perf.ctr > 0 →
      ¬ strContains (perfSegment perf) "CTR:" := by
    intro perf hd hc hcontains
    exact charT_not_in_perfSegment hd hc (mem_of_strContains hcontains (by decide))
  refine ⟨?_, ?_, ?_⟩
  · intro perf hd
    refine ⟨⟨?_, ?_⟩, ?_, ?_⟩
    · intro hcontains
      by_contra hc
      exact hnot perf hd hc hcontains
    · intro hc
      rw [hseg perf hd]
      exact strContains_appendL _ _ _ (ctrSegment_contains perf hc)
    · intro hc
      unfold ctrSegment
      rw [if_pos hc]
    · intro hc
      have hc0 : ¬ perf.ctr > 0 := by rw [hc]; exact lt_irrefl 0
      have hempty : ctrSegment perf = "" := by
        unfold ctrSegment
        rw [if_neg hc0]
      refine ⟨?_, ?_, ?_, hnot perf hd hc0⟩
      · rw [hseg perf hd, hempty]
        exact String.append_empty _
      · rw [hseg perf hd, hempty]
        refine ⟨" | #".data ++ (posStr perf).data ++ " | ".data,
          " | ".data ++ (intStr perf.impressions).data ++ " impr".data, ?_⟩
        simp [String.data_append, List.append_assoc]
      · rw [hseg perf hd, hempty]
        refine ⟨" | #".data ++ (posStr perf).data ++ " | ".data ++
            (intStr perf.clicks).data ++ " clics | ".data, [], ?_⟩
        simp [String.data_append, List.append_assoc]
  · intro perf hd
    constructor
    · intro hcontains
      by_contra hc
      have hchar : 'T' ∉ (perfSegmentLegacy perf).data := by
        unfold perfSegmentLegacy
        rw [hd, if_pos rfl]
        unfold ctrSegment
        rw [if_neg hc]
        intro h
        have hI : ∀ i : ℤ, 'T' ∉ (intStr i).data := by
          intro i hmem
          have := intStr_mem hmem
          revert this
          decide
        have hP : 'T' ∉ (posStr perf).data := by
          intro hmem
          have := posStr_mem hmem
          revert this
          decide
        simp [String.data_append] at h
        rcases h with h | h | h
        · exact hP h
        · exact hI _ h
        · exact hI _ h
      exact hchar (mem_of_strContains hcontains (by decide))
    · intro hc
      have : perfSegmentLegacy perf =
          " | Pos: #" ++ posStr perf ++ " | " ++ intStr perf.clicks ++ " clics | " ++
            intStr perf.impressions ++ " impr" ++ ctrSegment perf := by
        unfold perfSegmentLegacy
        rw [hd, if_pos rfl]
      rw [this]
      exact strContains_appendL _ _ _ (ctrSegment_contains perf hc)
  · intro rt k perf hk
    unfold renderPerfKeywordLine
    rw [hk]
    simp [String.append_assoc]

/-- Metrics with a strictly positive CTR (witness input). -/
def perfCtr : PerfMetrics := ⟨true, some 3, 12, 200, 1⟩

/-- Metrics with a zero CTR (witness input). -/
def perfNoCtr : PerfMetrics := ⟨true, some 3, 12, 200, 0⟩

/-- Witness for C10: a positive CTR puts `CTR:` in the segment; a zero CTR
leaves clicks and impressions but no `CTR:`. -/
theorem claim10_witness :
    strContains (perfSegment perfCtr) "CTR:" ∧
    strContains (perfSegment perfNoCtr) (intStr perfNoCtr.clicks ++ " clics") ∧
    ¬ strContains (perfSegment perfNoCtr) "CTR:" := by
  refine ⟨?_, ?_, ?_⟩
  · exact (claim10_ctr_display.1 perfCtr rfl).1.mpr (by norm_num [perfCtr])
  · exact ((claim10_ctr_display.1 perfNoCtr rfl).2.2 rfl).2.1
  · exact ((claim10_ctr_display.1 perfNoCtr rfl).2.2 rfl).2.2.2

/-! ### Claim C1 -/

theorem format_ok_isError_websites {rt : Runtime} {d : BackendData} {r : Report}
    (h : formatWebsites rt d = .ok r) : r.isError = false := by
  cases d <;> dsimp only [formatWebsites] at h
  case websites r' =>
    injection h with h
    rw [← h]
  all_goals exact Except.noConfusion h

theorem format_ok_isError_categories {rt : Runtime} {d : BackendData} {r : Report}
    (h : formatCategories rt d = .ok r) : r.isError = false := by
  cases d <;> dsimp only [formatCategories] at h
  case categoriesList r' =>
    injection h with h
    rw [← h]
  all_goals exact Except.noConfusion h

theorem format_ok_isError_kwList {rt : Runtime} {d : BackendData} {r : Report}
    (h : formatKwList rt d = .ok r) : r.isError = false := by
  cases d <;> dsimp only [formatKwList] at h
  case kwList r' =>
    cases hb : byCategory r'.keywords with
    | error e =>
      rw [hb] at h
      exact Except.noConfusion h
    | ok groups =>
      rw [hb] at h
      dsimp only at h
      injection h with h
      rw [← h]
  all_goals exact Except.noConfusion h

theorem format_ok_isError_kwCats {rt : Runtime} {d : BackendData} {r : Report}
    (h : formatKwCats rt d = .ok r) : r.isError = false := by
  cases d <;> dsimp only [formatKwCats] at h
  case kwCats r' =>
    split at h <;> (injection h with h; rw [← h])
  all_goals exact Except.noConfusion h

theorem format_ok_isError_summary {rt : Runtime} {d : BackendData} {r : Report}
    (h : formatSummary rt d = .ok r) : r.isError = false := by
  cases d <;> dsimp only [formatSummary] at h
  case summary r' =>
    split at h <;> (injection h with h; rw [← h])
  all_goals exact Except.noConfusion h

theorem toolStep_ok_isError {α : Type} {env : Backend} {toolName : String}
    {parse : Json → Except String α} {encode : α → Json}
    {format : BackendData → Except String Report} {args : Json} {r : Report}
    {reqs : List (String × Json)}
    (hfmt : ∀ (d : BackendData) (rep : Report), format d = .ok rep → rep.isError = false)
    (h : toolStep env toolName parse encode format args = (.ok r, reqs)) :
    r.isError = false := by
  unfold toolStep at h
  cases hp : parse args with
  | error e =>
    rw [hp] at h
    dsimp only at h
    injection h with h1 h2
    exact Except.noConfusion h1
  | ok p =>
    rw [hp] at h
    dsimp only at h
    cases hc : callReferencimeAPI env toolName (encode p) with
    | mk res reqs' =>
      rw [hc] at h
      cases res with
      | error e =>
        dsimp only at h
        injection h with h1 h2
        exact Except.noConfusion h1
      | ok data =>
        dsimp only at h
        have h1 : format data = .ok r := congrArg Prod.fst h
        exact hfmt data r h1

theorem handlerBody_unknown {rt : Runtime} {env : Backend} {name : String} {args : Json}
    (h1 : ¬ name = "list_websites_by_user")
    (h2 : ¬ name = "list_categories_by_website")
    (h3 : ¬ name = "list_keywords_by_website")
    (h4 : ¬ name = "list_keywords_by_categories_by_website")
    (h5 : ¬ name = "get_website_performance_summary") :
    handlerBody rt env name args = (.error ("Outil inconnu: " ++ name), []) := by
  unfold handlerBody
  rw [if_neg h1, if_neg h2, if_neg h3, if_neg h4, if_neg h5]

/-- Claim C1: every failure of the handler body (validation, unknown tool,
gateway HTTP error, backend-reported failure, formatter exception) is
recovered by the catch into an error-flagged report carrying the error
message — `handleCallTool` is total, so no raw fault ever reaches the
protocol layer — while every successful path yields a report whose error
flag is off; an unknown tool name gives the `Outil inconnu` report without
any HTTP request. -/
theorem claim1_uniform_error_wrapping :
    ∀ (rt : Runtime) (env : Backend) (name : String) (args : Json),
      (∀ (msg : String) (reqs : List (String × Json)),
        handlerBody rt env name args = (.error msg, reqs) →
        handleCallTool rt env name args = (mkErrorReport msg, reqs) ∧
        (mkErrorReport msg).isError = true ∧
        strContains (mkErrorReport msg).text msg)
      ∧
      (∀ (r : Report) (reqs : List (String × Json)),
        handlerBody rt env name args = (.ok r, reqs) →
        r.isError = false ∧ handleCallTool rt env name args = (r, reqs))
      ∧
      (name ∉ declaredTools →
        handleCallTool rt env name args =
          (mkErrorReport ("Outil inconnu: " ++ name), [])) := by
  intro rt env name args
  refine ⟨?_, ?_, ?_⟩
  · intro msg reqs h
    exact ⟨handleCallTool_of_error h, rfl, mkErrorReport_contains msg⟩
  · intro r reqs h
    have h0 := h
    refine ⟨?_, handleCallTool_of_ok h0⟩
    by_cases h1 : name = "list_websites_by_user"
    · subst h1
      rw [handlerBody_websites] at h
      exact toolStep_ok_isError (fun d rep => format_ok_isError_websites) h
    by_cases h2 : name = "list_categories_by_website"
    · subst h2
      rw [handlerBody_categories] at h
      exact toolStep_ok_isError (fun d rep => format_ok_isError_categories) h
    by_cases h3 : name = "list_keywords_by_website"
    · subst h3
      rw [handlerBody_kwList] at h
      exact toolStep_ok_isError (fun d rep => format_ok_isError_kwList) h
    by_cases h4 : name = "list_keywords_by_categories_by_website"
    · subst h4
      rw [handlerBody_kwCats] at h
      exact toolStep_ok_isError (fun d rep => format_ok_isError_kwCats) h
    by_cases h5 : name = "get_website_performance_summary"
    · subst h5
      rw [handlerBody_summary] at h
      exact toolStep_ok_isError (fun d rep => format_ok_isError_summary) h
    rw [handlerBody_unknown h1 h2 h3 h4 h5] at h
    injection h with h6 h7
    exact Except.noConfusion h6
  · intro hmem
    simp only [declaredTools, List.mem_cons, List.not_mem_nil, or_false, not_or] at hmem
    obtain ⟨h1, h2, h3, h4, h5⟩ := hmem
    exact handleCallTool_of_error (handlerBody_unknown h1 h2 h3 h4 h5)

/-- Witness for C1: calling an undeclared tool name yields exactly the
flagged `Outil inconnu` report and no HTTP request. -/
theorem claim1_witness :
    handleCallTool rt0 env502 "outil_inexistant" Json.null =
      (mkErrorReport ("Outil inconnu: " ++ "outil_inexistant"), []) ∧
    (mkErrorReport ("Outil inconnu: " ++ "outil_inexistant")).isError = true :=
  ⟨(claim1_uniform_error_wrapping rt0 env502 "outil_inexistant" Json.null).2.2 (by decide),
   rfl⟩

end Referencime
